import Mathlib

/-! Exo.io: a shallow embedding of the simulation core.

The JavaScript sources `js/utils.js`, `js/entities.js`, `js/player.js` and
`js/game.js` are embedded as pure functions on explicit state records.

Conventions of the embedding:

* JavaScript numbers are exact rationals (`ℚ`); counters that only ever hold
  natural numbers are `ℕ`, the upgrade-point balance is an `ℤ`.
* The functions of the `Math` object (`sqrt`, `cos`, `sin`, `atan2`, `random`,
  `PI`) are not part of the sources; they are the fields of a `JsMath` record
  that every function using them takes as its first argument.  `Math.random()`
  is a stream: the `k`-th call returns `m.random k`, and the functions that
  draw random numbers take and return the number of calls made so far.
* `NaN` appears only in an enemy's `targetX`/`targetY` (the flee branch divides
  by a norm that can be zero); these two fields are `Option ℚ`, `none` being
  `NaN`.
* An object property that no constructor assigns (`entity.id`) is an
  `Option`, `none` being `undefined`.
* Arithmetic is exact: floating-point rounding enters only through the values
  of `Math.sqrt`, which are whatever the `JsMath` record returns, and through
  the explicit rounding functions of `Utils.distanceRounded` and
  `Utils.circleCollisionRounded`.
* Canvas drawing and DOM updates have no effect on the simulation state and
  are left out.
-/

namespace Exo

/-! ## The `Math` object -/

/-- The functions of the JavaScript `Math` object used by the sources. -/
structure JsMath where
  sqrt : ℚ → ℚ
  cos : ℚ → ℚ
  sin : ℚ → ℚ
  atan2 : ℚ → ℚ → ℚ
  pi : ℚ
  random : ℕ → ℚ

/-- Newton's iteration for the integer square root of `n` from the guess `x`,
for at most the given number of steps. -/
def newtonSqrt (n : ℕ) : ℕ → ℕ → ℕ
  | 0, x => x
  | steps + 1, x =>
    let y := (x + n / x) / 2
    if y < x then newtonSqrt n steps y else x

/-- The integer square root of `n` (rounded down, for `n` below `2 ^ 190`). -/
def natSqrt (n : ℕ) : ℕ :=
  if n ≤ 1 then n else newtonSqrt n 200 n

/-- A square root on the rationals: the integer square root of the numerator
over that of the denominator, exact on the squares of rationals; `0` for a
negative argument. -/
def ratSqrt (q : ℚ) : ℚ :=
  if q < 0 then 0 else (natSqrt q.num.toNat : ℚ) / (natSqrt q.den : ℚ)

/-- A concrete `Math` object for evaluating scenarios: `sqrt` is exact on
squares of rationals, `cos` and `sin` are exact at `0`, every `Math.random()`
call returns `1/2`. -/
def refMath : JsMath where
  sqrt := ratSqrt
  cos := fun a => 1 - a * a / 2
  sin := fun a => a
  atan2 := fun y x => if x = 0 then 0 else y / x
  pi := 355 / 113
  random := fun _ => 1 / 2

/-! ## utils.js -/

namespace Utils

/-- The function `Utils.distance(x1, y1, x2, y2)`. -/
def distance (m : JsMath) (x1 y1 x2 y2 : ℚ) : ℚ :=
  m.sqrt ((x2 - x1) ^ 2 + (y2 - y1) ^ 2)

/-- The function `Utils.circleCollision(x1, y1, r1, x2, y2, r2)`. -/
def circleCollision (m : JsMath) (x1 y1 r1 x2 y2 r2 : ℚ) : Bool :=
  decide (distance m x1 y1 x2 y2 < r1 + r2)

/-- The function `Utils.distance(x1, y1, x2, y2)` with the rounding of
floating-point arithmetic made explicit: `fl` rounds the exact result of a
subtraction or an addition and `pow2` is `Math.pow(·, 2)`, while `Math.sqrt`
rounds by itself.  With `fl` the identity and `pow2` the exact square this is
`Utils.distance`. -/
def distanceRounded (fl pow2 : ℚ → ℚ) (m : JsMath) (x1 y1 x2 y2 : ℚ) : ℚ :=
  m.sqrt (fl (pow2 (fl (x2 - x1)) + pow2 (fl (y2 - y1))))

/-- The function `Utils.circleCollision(x1, y1, r1, x2, y2, r2)` with the
rounding of floating-point arithmetic made explicit, as in `distanceRounded`;
the comparison `<` itself is exact. -/
def circleCollisionRounded (fl pow2 : ℚ → ℚ) (m : JsMath) (x1 y1 r1 x2 y2 r2 : ℚ) : Bool :=
  decide (distanceRounded fl pow2 m x1 y1 x2 y2 < fl (r1 + r2))

/-- The function `Utils.random(min, max)`, as the `k`-th call of `Math.random()`. -/
def random (m : JsMath) (k : ℕ) (lo hi : ℚ) : ℚ :=
  m.random k * (hi - lo) + lo

/-- The function `Utils.clamp(value, min, max) = Math.min(Math.max(value, min), max)`. -/
def clamp (value lo hi : ℚ) : ℚ :=
  min (max value lo) hi

end Utils

/-- The value of `Utils.clamp(base + (num / den) * scale, lo, hi)` for a positive `scale`
under IEEE division: a zero `den` gives `NaN` (here `none`) when `num` is zero
and an infinity of the sign of `num` otherwise, which `Math.max`/`Math.min`
then clamp. -/
def clampQuotient (base num den scale lo hi : ℚ) : Option ℚ :=
  if den = 0 then
    if num = 0 then none
    else if 0 < num then some hi
    else some (min lo hi)
  else some (Utils.clamp (base + num / den * scale) lo hi)

/-- The comparison `a / b < c` under IEEE division: `a / 0` is `NaN` for
`a = 0` (every comparison false), `+Infinity` for `a > 0`, `-Infinity` for
`a < 0`. -/
def quotientLt (a b c : ℚ) : Bool :=
  if b = 0 then decide (a < 0) else decide (a / b < c)

/-! ## entities.js -/

/-- A `Shape` object (`class Shape extends Entity`). -/
structure Shape where
  x : ℚ
  y : ℚ
  radius : ℚ
  color : String
  markedForDeletion : Bool
  id : Option ℕ
  type : String
  health : ℚ
  maxHealth : ℚ
  points : ℚ
  sides : ℕ
deriving DecidableEq

/-- A `Bullet` object (`class Bullet extends Entity`). -/
structure Bullet where
  x : ℚ
  y : ℚ
  radius : ℚ
  color : String
  markedForDeletion : Bool
  id : Option ℕ
  angle : ℚ
  speed : ℚ
  damage : ℚ
  lifetime : ℕ
  maxLifetime : ℕ
  fromPlayer : Bool
  piercing : Bool
  piercedTargets : List (Option ℕ)
  explosive : Bool
  explosionRadius : ℚ
  explosionDamage : ℚ
deriving DecidableEq

/-- An `Enemy` object (`class Enemy extends Entity`). -/
structure Enemy where
  x : ℚ
  y : ℚ
  radius : ℚ
  color : String
  markedForDeletion : Bool
  id : Option ℕ
  tier : ℕ
  maxHealth : ℚ
  health : ℚ
  damage : ℚ
  speed : ℚ
  points : ℚ
  angle : ℚ
  targetX : Option ℚ
  targetY : Option ℚ
  retargetCounter : ℕ
  retargetRate : ℕ
  shootCounter : ℕ
  shootRate : ℕ
  detectionRadius : ℚ
  fleeing : Bool
  fleeHealthPercent : ℚ
deriving DecidableEq

/-- The `movement` record of a player. -/
structure Movement where
  up : Bool
  down : Bool
  left : Bool
  right : Bool
deriving DecidableEq

/-- A `Player` object (`class Player extends Entity`). -/
structure Player where
  x : ℚ
  y : ℚ
  radius : ℚ
  color : String
  markedForDeletion : Bool
  id : Option ℕ
  speed : ℚ
  rotationSpeed : ℚ
  angle : ℚ
  health : ℚ
  maxHealth : ℚ
  score : ℚ
  level : ℕ
  experience : ℚ
  experienceToNextLevel : ℚ
  movement : Movement
  shooting : Bool
  shootingCooldown : ℚ
  shootingRate : ℚ
  bulletSpeed : ℚ
  bulletDamage : ℚ
  mouseX : ℚ
  mouseY : ℚ
  tankClass : String
  availableClasses : List String
  hasChosenClass : Bool
  specialAbility : Option String
  specialCooldown : ℚ
  specialMaxCooldown : ℚ
  usingSpecial : Bool
deriving DecidableEq

/-- The camera record `{x, y}`. -/
structure Camera where
  x : ℚ
  y : ℚ
deriving DecidableEq

/-- The per-type stats table `types` of the `Shape` constructor. -/
structure ShapeStats where
  radius : ℚ
  color : String
  health : ℚ
  points : ℚ
deriving DecidableEq

namespace Shape

/-- The names of the members that the object literal `types` of the `Shape`
constructor inherits from `Object.prototype`.  For such a name `types[type]` is
a function (for `__proto__` the prototype object): it is truthy, so the
fallback `|| types.square` is not taken, and it has none of the properties
`radius`, `color`, `health`, `points`. -/
def inheritedNames : List String :=
  ["constructor", "toString", "toLocaleString", "valueOf", "hasOwnProperty",
    "isPrototypeOf", "propertyIsEnumerable", "__proto__", "__defineGetter__",
    "__defineSetter__", "__lookupGetter__", "__lookupSetter__"]

/-- The lookup `types[type] || types.square` of the constructor: the stats
record that it yields, or `none` when it yields an inherited member, whose
`radius`, `color`, `health` and `points` are `undefined`. -/
def stats (type : String) : Option ShapeStats :=
  if type = "square" then some ⟨20, "#FFE869", 10, 10⟩
  else if type = "triangle" then some ⟨15, "#FC7676", 15, 25⟩
  else if type = "pentagon" then some ⟨25, "#768DFC", 30, 100⟩
  else if type ∈ inheritedNames then none
  else some ⟨20, "#FFE869", 10, 10⟩

/-- The constructor `new Shape(x, y, type)`; no `id` is assigned.  For a `type`
in `inheritedNames` the constructed object has `undefined` in `radius`,
`color`, `health`, `maxHealth` and `points` (`stats type = none`), which the
number fields of the record cannot hold: the record then carries the square's
values in their place, and only its `x`, `y`, `type`, `sides`, `id` and
`markedForDeletion` are those of the object. -/
def new (x y : ℚ) (type : String) : Shape :=
  let shapeType := (stats type).getD ⟨20, "#FFE869", 10, 10⟩
  { x := x, y := y, radius := shapeType.radius, color := shapeType.color
    markedForDeletion := false, id := none
    type := type
    health := shapeType.health
    maxHealth := shapeType.health
    points := shapeType.points
    sides := if type = "square" then 4 else if type = "triangle" then 3 else 5 }

/-- The method `Shape.takeDamage(damage)`: the shape afterwards and the
returned number. -/
def takeDamage (s : Shape) (damage : ℚ) : Shape × ℚ :=
  let s1 := { s with health := s.health - damage }
  if s1.health ≤ 0 then
    ({ s1 with markedForDeletion := true }, s1.points)
  else (s1, 0)

end Shape

namespace Bullet

/-- The constructor `new Bullet(x, y, angle, speed, damage, color, fromPlayer)`. -/
def new (x y angle speed damage : ℚ) (color : String) (fromPlayer : Bool) : Bullet :=
  { x := x, y := y, radius := 5, color := color
    markedForDeletion := false, id := none
    angle := angle, speed := speed, damage := damage
    lifetime := 0, maxLifetime := 100
    fromPlayer := fromPlayer
    piercing := false, piercedTargets := []
    explosive := false, explosionRadius := 0, explosionDamage := 0 }

/-- The method `Bullet.update()`; `createExplosion` has an empty body. -/
def update (m : JsMath) (b : Bullet) : Bullet :=
  let b1 := { b with x := b.x + m.cos b.angle * b.speed }
  let b2 := { b1 with y := b1.y + m.sin b1.angle * b1.speed }
  let b3 := { b2 with lifetime := b2.lifetime + 1 }
  if b3.lifetime ≥ b3.maxLifetime then
    { b3 with markedForDeletion := true }
  else b3

/-- The method `Bullet.hasHit(entity)`, given the value of `entity.id`. -/
def hasHit (b : Bullet) (entityId : Option ℕ) : Bool :=
  if b.piercing then b.piercedTargets.contains entityId
  else false

/-- The method `Bullet.registerHit(entity)`, given the value of `entity.id`. -/
def registerHit (b : Bullet) (entityId : Option ℕ) : Bullet :=
  if b.piercing then
    { b with piercedTargets := b.piercedTargets ++ [entityId] }
  else
    { b with markedForDeletion := true }

end Bullet

/-- The per-tier stats table `tierProps` of the `Enemy` constructor. -/
structure TierProps where
  radius : ℚ
  color : String
  health : ℚ
  damage : ℚ
  speed : ℚ
  shootRate : ℕ
  points : ℚ

namespace Enemy

/-- The lookup `tierProps[tier] || tierProps[1]` of the constructor. -/
def props (tier : ℕ) : TierProps :=
  if tier = 1 then ⟨15, "#F14E54", 100, 5, 2, 60, 250⟩
  else if tier = 2 then ⟨18, "#E67E22", 200, 8, 1.8, 50, 500⟩
  else if tier = 3 then ⟨20, "#9B59B6", 300, 12, 1.5, 40, 1000⟩
  else ⟨15, "#F14E54", 100, 5, 2, 60, 250⟩

/-- The constructor `new Enemy(x, y, tier)`; no `id` is assigned. -/
def new (x y : ℚ) (tier : ℕ) : Enemy :=
  let props := props tier
  { x := x, y := y, radius := props.radius, color := props.color
    markedForDeletion := false, id := none
    tier := tier
    maxHealth := props.health
    health := props.health
    damage := props.damage
    speed := props.speed
    points := props.points
    angle := 0
    targetX := some x
    targetY := some y
    retargetCounter := 0
    retargetRate := 120
    shootCounter := 0
    shootRate := props.shootRate
    detectionRadius := 400
    fleeing := false
    fleeHealthPercent := 0.3 }

/-- The method `Enemy.chooseRandomTarget(worldSize)`, drawing the `k`-th random
number. -/
def chooseRandomTarget (m : JsMath) (k : ℕ) (e : Enemy) (worldSize : ℚ) : Enemy × ℕ :=
  let moveDistance : ℚ := 200
  let angle := m.random k * m.pi * 2
  let e1 := { e with
    targetX := some (Utils.clamp (e.x + m.cos angle * moveDistance) e.radius (worldSize - e.radius)) }
  let e2 := { e1 with
    targetY := some (Utils.clamp (e1.y + m.sin angle * moveDistance) e1.radius (worldSize - e1.radius)) }
  (e2, k + 1)

/-- The method `Enemy.moveTowardsTarget()`.  With a `NaN` target the distance
is `NaN` and the test `distance > 5` is false. -/
def moveTowardsTarget (m : JsMath) (e : Enemy) : Enemy :=
  match e.targetX, e.targetY with
  | some targetX, some targetY =>
    let dx := targetX - e.x
    let dy := targetY - e.y
    let distance := m.sqrt (dx * dx + dy * dy)
    if distance > 5 then
      let speed := if e.fleeing then e.speed * 1.5 else e.speed
      if !e.fleeing && decide (distance < 150) then e
      else
        let vx := (dx / distance) * speed
        let vy := (dy / distance) * speed
        { e with x := e.x + vx, y := e.y + vy }
    else e
  | _, _ => e

/-- The method `Enemy.shoot(bullets, player)`, drawing the `k`-th random
number: the bullet array afterwards and the number of random calls made. -/
def shoot (m : JsMath) (k : ℕ) (e : Enemy) (bullets : List Bullet) : List Bullet × ℕ :=
  let inaccuracy := (m.random k - 0.5) * 0.2
  let angle := e.angle + inaccuracy
  let bulletX := e.x + m.cos angle * (e.radius + 10)
  let bulletY := e.y + m.sin angle * (e.radius + 10)
  (bullets ++ [Bullet.new bulletX bulletY angle 5 e.damage e.color false], k + 1)

/-- The test `Utils.distance(this.x, this.y, this.targetX, this.targetY) < 10`
of the wander branch; false for a `NaN` target. -/
def nearTarget (m : JsMath) (e : Enemy) : Bool :=
  match e.targetX, e.targetY with
  | some targetX, some targetY => decide (Utils.distance m e.x e.y targetX targetY < 10)
  | _, _ => false

/-- The first part of `Enemy.update(player, worldSize, bullets)`, given the
player's position: the choice between fleeing, chasing (and shooting) and
wandering.  The enemy afterwards, the bullet array afterwards and the number of
random calls made. -/
def chooseBehaviour (m : JsMath) (k : ℕ) (e : Enemy) (playerX playerY worldSize : ℚ)
    (bullets : List Bullet) : Enemy × List Bullet × ℕ :=
  let distToPlayer := Utils.distance m e.x e.y playerX playerY
  let canSeePlayer := decide (distToPlayer < e.detectionRadius)
  if canSeePlayer then
    let acted : Enemy × List Bullet × ℕ :=
      if quotientLt e.health e.maxHealth e.fleeHealthPercent then
        let e1 := { e with fleeing := true }
        let dx := e1.x - playerX
        let dy := e1.y - playerY
        let norm := m.sqrt (dx * dx + dy * dy)
        let e2 := { e1 with
          targetX := clampQuotient e1.x dx norm 200 e1.radius (worldSize - e1.radius) }
        let e3 := { e2 with
          targetY := clampQuotient e2.y dy norm 200 e2.radius (worldSize - e2.radius) }
        (e3, bullets, k)
      else
        let e1 := { e with fleeing := false, targetX := some playerX, targetY := some playerY }
        let e2 := { e1 with shootCounter := e1.shootCounter + 1 }
        if e2.shootCounter ≥ e2.shootRate then
          let e3 := { e2 with shootCounter := 0 }
          let shot := e3.shoot m k bullets
          (e3, shot.1, shot.2)
        else (e2, bullets, k)
    ({ acted.1 with angle := m.atan2 (playerY - acted.1.y) (playerX - acted.1.x) },
      acted.2.1, acted.2.2)
  else
    let e1 := { e with retargetCounter := e.retargetCounter + 1 }
    if decide (e1.retargetCounter ≥ e1.retargetRate) || e1.nearTarget m then
      let chosen := chooseRandomTarget m k { e1 with retargetCounter := 0 } worldSize
      (chosen.1, bullets, chosen.2)
    else (e1, bullets, k)

/-- The method `Enemy.update(player, worldSize, bullets)`, given the player's
position: the behaviour is chosen, the enemy moves towards its target and is
restricted to the world.  The enemy afterwards, the bullet array afterwards and
the number of random calls made. -/
def update (m : JsMath) (k : ℕ) (e : Enemy) (playerX playerY worldSize : ℚ)
    (bullets : List Bullet) : Enemy × List Bullet × ℕ :=
  let decided := chooseBehaviour m k e playerX playerY worldSize bullets
  let moved := moveTowardsTarget m decided.1
  let e4 := { moved with x := Utils.clamp moved.x moved.radius (worldSize - moved.radius) }
  let e5 := { e4 with y := Utils.clamp e4.y e4.radius (worldSize - e4.radius) }
  (e5, decided.2.1, decided.2.2)

/-- The method `Enemy.takeDamage(damage)`: the enemy afterwards and the
returned number. -/
def takeDamage (e : Enemy) (damage : ℚ) : Enemy × ℚ :=
  let e1 := { e with health := e.health - damage }
  if e1.health ≤ 0 then
    ({ e1 with markedForDeletion := true }, e1.points)
  else (e1, 0)

end Enemy

/-! ## player.js -/

namespace Player

/-- The constructor `new Player(x, y)`. -/
def new (x y : ℚ) : Player :=
  { x := x, y := y, radius := 15, color := "#00B2E1"
    markedForDeletion := false, id := none
    speed := 3
    rotationSpeed := 0.05
    angle := 0
    health := 100
    maxHealth := 100
    score := 0
    level := 1
    experience := 0
    experienceToNextLevel := 100
    movement := { up := false, down := false, left := false, right := false }
    shooting := false
    shootingCooldown := 0
    shootingRate := 20
    bulletSpeed := 7
    bulletDamage := 5
    mouseX := 0
    mouseY := 0
    tankClass := "basic"
    availableClasses := ["twin", "sniper", "machine", "destroyer"]
    hasChosenClass := false
    specialAbility := none
    specialCooldown := 0
    specialMaxCooldown := 300
    usingSpecial := false }

/-- The displacement `(dx, dy)` computed at the start of `Player.update`, before
it is added to the position, over any ordered field of numbers with a square
root function, for a player of the given speed and movement flags.  The
normalising division is by the square root of `dx * dx + dy * dy` with both
`dx` and `dy` nonzero. -/
def displacementOver {K : Type} [LinearOrderedField K] (sqrt : K → K) (speed : K)
    (movement : Movement) : K × K :=
  let dx : K := 0
  let dy : K := 0
  let dy := if movement.up then dy - speed else dy
  let dy := if movement.down then dy + speed else dy
  let dx := if movement.left then dx - speed else dx
  let dx := if movement.right then dx + speed else dx
  if dx ≠ 0 ∧ dy ≠ 0 then
    let factor := speed / sqrt (dx * dx + dy * dy)
    (dx * factor, dy * factor)
  else (dx, dy)

/-- The displacement `(dx, dy)` computed at the start of `Player.update`, before
it is added to the position. -/
def displacement (m : JsMath) (p : Player) : ℚ × ℚ :=
  displacementOver m.sqrt p.speed p.movement

/-- The movement part of `Player.update`: the displacement is added and the
position restricted to the world, whose size is the constant `2000`. -/
def updatePosition (m : JsMath) (p : Player) : Player :=
  let d := displacement m p
  let p1 := { p with x := p.x + d.1 }
  let p2 := { p1 with y := p1.y + d.2 }
  let worldSize : ℚ := 2000
  let p3 := { p2 with x := Utils.clamp p2.x p2.radius (worldSize - p2.radius) }
  { p3 with y := Utils.clamp p3.y p3.radius (worldSize - p3.radius) }

/-- The aiming part of `Player.update`: the angle to the mouse position. -/
def updateAngle (m : JsMath) (p : Player) (camera : Camera) : Player :=
  let mouseWorldX := p.mouseX + camera.x
  let mouseWorldY := p.mouseY + camera.y
  { p with angle := m.atan2 (mouseWorldY - p.y) (mouseWorldX - p.x) }

/-- The shooting-cooldown part of `Player.update`. -/
def updateShootingCooldown (p : Player) : Player :=
  if p.shootingCooldown > 0 then { p with shootingCooldown := p.shootingCooldown - 1 }
  else p

/-- The special-cooldown part of `Player.update`. -/
def updateSpecialCooldown (p : Player) : Player :=
  if p.specialCooldown > 0 then { p with specialCooldown := p.specialCooldown - 1 }
  else p

/-- The method `Player.update(canvasWidth, canvasHeight, camera)`: its four
parts in source order. -/
def update (m : JsMath) (p : Player) (camera : Camera) : Player :=
  updateSpecialCooldown (updateShootingCooldown (updateAngle m (updatePosition m p) camera))

/-- The method `Player.shootBasic(bullets)`. -/
def shootBasic (m : JsMath) (p : Player) (bullets : List Bullet) : List Bullet :=
  let barrelLength := p.radius + 15
  let bulletX := p.x + m.cos p.angle * barrelLength
  let bulletY := p.y + m.sin p.angle * barrelLength
  bullets ++ [Bullet.new bulletX bulletY p.angle p.bulletSpeed p.bulletDamage p.color true]

/-- One iteration of the loop of `Player.shootTwin`, for the loop variable `i`. -/
def twinBullet (m : JsMath) (p : Player) (i : ℚ) : Bullet :=
  let barrelLength := p.radius + 15
  let spread : ℚ := 8
  let perpX := m.sin p.angle
  let perpY := -m.cos p.angle
  let bulletX := p.x + m.cos p.angle * barrelLength + perpX * spread * i / 2
  let bulletY := p.y + m.sin p.angle * barrelLength + perpY * spread * i / 2
  Bullet.new bulletX bulletY p.angle p.bulletSpeed p.bulletDamage p.color true

/-- The method `Player.shootTwin(bullets)`: the loop runs for `i = -1` and `i = 1`. -/
def shootTwin (m : JsMath) (p : Player) (bullets : List Bullet) : List Bullet :=
  bullets ++ [twinBullet m p (-1)] ++ [twinBullet m p 1]

/-- The method `Player.shootSniper(bullets)`. -/
def shootSniper (m : JsMath) (p : Player) (bullets : List Bullet) : List Bullet :=
  let barrelLength := p.radius + 25
  let bulletX := p.x + m.cos p.angle * barrelLength
  let bulletY := p.y + m.sin p.angle * barrelLength
  bullets ++ [Bullet.new bulletX bulletY p.angle (p.bulletSpeed * 1.5) (p.bulletDamage * 2)
    p.color true]

/-- The method `Player.shootMachine(bullets)`, drawing the `k`-th random number. -/
def shootMachine (m : JsMath) (k : ℕ) (p : Player) (bullets : List Bullet) : List Bullet × ℕ :=
  let barrelLength := p.radius + 15
  let spread : ℚ := 0.15
  let randomAngle := p.angle + (m.random k - 0.5) * spread
  let bulletX := p.x + m.cos randomAngle * barrelLength
  let bulletY := p.y + m.sin randomAngle * barrelLength
  (bullets ++ [Bullet.new bulletX bulletY randomAngle (p.bulletSpeed * 0.9)
    (p.bulletDamage * 0.7) p.color true], k + 1)

/-- The method `Player.shootDestroyer(bullets)`. -/
def shootDestroyer (m : JsMath) (p : Player) (bullets : List Bullet) : List Bullet :=
  let barrelLength := p.radius + 15
  let bulletX := p.x + m.cos p.angle * barrelLength
  let bulletY := p.y + m.sin p.angle * barrelLength
  let largeBullet :=
    Bullet.new bulletX bulletY p.angle (p.bulletSpeed * 0.7) (p.bulletDamage * 3) p.color true
  bullets ++ [{ largeBullet with radius := 10 }]

/-- The method `Player.shoot(bullets)`: the player afterwards, the bullet array
afterwards and the number of random calls made. -/
def shoot (m : JsMath) (k : ℕ) (p : Player) (bullets : List Bullet) :
    Player × List Bullet × ℕ :=
  if p.shootingCooldown ≤ 0 ∧ p.shooting = true then
    let fired : List Bullet × ℕ :=
      if p.tankClass = "twin" then (p.shootTwin m bullets, k)
      else if p.tankClass = "sniper" then (p.shootSniper m bullets, k)
      else if p.tankClass = "machine" then p.shootMachine m k bullets
      else if p.tankClass = "destroyer" then (p.shootDestroyer m bullets, k)
      else (p.shootBasic m bullets, k)
    ({ p with shootingCooldown := p.shootingRate }, fired.1, fired.2)
  else (p, bullets, k)

/-- The pending timers created by `setTimeout` in `specialMachineBarrage`: each
entry is the `oldRate` captured by one scheduled callback. -/
abbrev Timers := List ℚ

/-- One iteration of the loop of `Player.specialTwinBlast`, for the loop
variable `i`. -/
def twinBlastBullet (m : JsMath) (p : Player) (i : ℕ) : Bullet :=
  let bulletCount : ℚ := 16
  let angle := (m.pi * 2) * (i / bulletCount)
  let bulletX := p.x + m.cos angle * (p.radius + 15)
  let bulletY := p.y + m.sin angle * (p.radius + 15)
  Bullet.new bulletX bulletY angle (p.bulletSpeed * 1.2) p.bulletDamage p.color true

/-- The method `Player.specialTwinBlast(bullets)`: the loop runs for
`i = 0, …, 15`. -/
def specialTwinBlast (m : JsMath) (p : Player) (bullets : List Bullet) : List Bullet :=
  bullets ++ (List.range 16).map (twinBlastBullet m p)

/-- The method `Player.specialSniperPierce(bullets)`. -/
def specialSniperPierce (m : JsMath) (p : Player) (bullets : List Bullet) : List Bullet :=
  let barrelLength := p.radius + 25
  let bulletX := p.x + m.cos p.angle * barrelLength
  let bulletY := p.y + m.sin p.angle * barrelLength
  let piercingBullet :=
    Bullet.new bulletX bulletY p.angle (p.bulletSpeed * 2) (p.bulletDamage * 5) "#00FFFF" true
  bullets ++ [{ piercingBullet with piercing := true }]

/-- The method `Player.specialMachineBarrage(bullets)`: the player afterwards
and the timers afterwards, with the new callback (capturing `oldRate`) last. -/
def specialMachineBarrage (p : Player) (timers : Timers) : Player × Timers :=
  let p1 := { p with usingSpecial := true }
  let oldRate := p1.shootingRate
  let p2 := { p1 with shootingRate := 3 }
  (p2, timers ++ [oldRate])

/-- The callback scheduled by `specialMachineBarrage`, run when its timer
fires. -/
def barrageRevert (p : Player) (oldRate : ℚ) : Player :=
  let p1 := { p with shootingRate := oldRate }
  { p1 with usingSpecial := false }

/-- One iteration of the loop of `Player.specialDestroyerShockwave`, for the
loop variable `i`. -/
def shockwaveBullet (m : JsMath) (p : Player) (i : ℕ) : Bullet :=
  let bulletCount : ℚ := 24
  let angle := (m.pi * 2) * (i / bulletCount)
  let bulletX := p.x + m.cos angle * (p.radius + 15)
  let bulletY := p.y + m.sin angle * (p.radius + 15)
  let shockBullet :=
    Bullet.new bulletX bulletY angle (p.bulletSpeed * 1.2) (p.bulletDamage * 2) "#FF7700" true
  { shockBullet with radius := 8 }

/-- The method `Player.specialDestroyerShockwave(bullets)`: the loop runs for
`i = 0, …, 23`. -/
def specialDestroyerShockwave (m : JsMath) (p : Player) (bullets : List Bullet) :
    List Bullet :=
  bullets ++ (List.range 24).map (shockwaveBullet m p)

/-- The truthiness of `this.specialAbility`: `null` and the empty string are
falsy. -/
def hasSpecial (p : Player) : Bool :=
  match p.specialAbility with
  | some name => name != ""
  | none => false

/-- The `switch` of `Player.activateSpecial`: the player, the bullet array and
the timers after the special of the player's class, or `none` for the `default`
branch, which returns from `activateSpecial`. -/
def dispatchSpecial (m : JsMath) (p : Player) (bullets : List Bullet) (timers : Timers) :
    Option (Player × List Bullet × Timers) :=
  if p.tankClass = "twin" then some (p, p.specialTwinBlast m bullets, timers)
  else if p.tankClass = "sniper" then some (p, p.specialSniperPierce m bullets, timers)
  else if p.tankClass = "machine" then
    let started := p.specialMachineBarrage timers
    some (started.1, bullets, started.2)
  else if p.tankClass = "destroyer" then some (p, p.specialDestroyerShockwave m bullets, timers)
  else none

/-- The method `Player.activateSpecial(bullets)`: the player, the bullet array
and the pending timers afterwards. -/
def activateSpecial (m : JsMath) (p : Player) (bullets : List Bullet) (timers : Timers) :
    Player × List Bullet × Timers :=
  if p.specialCooldown ≤ 0 ∧ p.hasSpecial = true then
    match dispatchSpecial m p bullets timers with
    | some (p1, bullets1, timers1) =>
      ({ p1 with specialCooldown := p1.specialMaxCooldown }, bullets1, timers1)
    | none => (p, bullets, timers)
  else (p, bullets, timers)

/-- The `switch` of `Player.setTankClass(className)`, after `tankClass` and
`hasChosenClass` have been assigned. -/
def adjustStats (p : Player) (className : String) : Player :=
  if className = "twin" then
    let p1 := { p with shootingRate := 15 }
    let p2 := { p1 with bulletDamage := p1.bulletDamage * 0.8 }
    { p2 with specialAbility := some "Twin Blast" }
  else if className = "sniper" then
    let p1 := { p with shootingRate := 50 }
    let p2 := { p1 with bulletSpeed := p1.bulletSpeed * 1.5 }
    let p3 := { p2 with bulletDamage := p2.bulletDamage * 1.5 }
    { p3 with specialAbility := some "Piercing Shot" }
  else if className = "machine" then
    let p1 := { p with shootingRate := 7 }
    let p2 := { p1 with bulletDamage := p1.bulletDamage * 0.6 }
    let p3 := { p2 with bulletSpeed := p2.bulletSpeed * 0.8 }
    { p3 with specialAbility := some "Bullet Barrage" }
  else if className = "destroyer" then
    let p1 := { p with shootingRate := 60 }
    let p2 := { p1 with bulletDamage := p1.bulletDamage * 2.5 }
    let p3 := { p2 with bulletSpeed := p2.bulletSpeed * 0.7 }
    { p3 with specialAbility := some "Shockwave" }
  else p

/-- The method `Player.setTankClass(className)`. -/
def setTankClass (p : Player) (className : String) : Player :=
  let p1 := { p with tankClass := className }
  let p2 := { p1 with hasChosenClass := true }
  adjustStats p2 className

/-- The method `Player.levelUp()`. -/
def levelUp (p : Player) : Player :=
  let p1 := { p with level := p.level + 1 }
  let p2 := { p1 with experience := p1.experience - p1.experienceToNextLevel }
  let p3 := { p2 with experienceToNextLevel := (⌊p2.experienceToNextLevel * 1.5⌋ : ℤ) }
  let p4 := { p3 with maxHealth := p3.maxHealth + 10 }
  let p5 := { p4 with health := p4.maxHealth }
  let p6 := { p5 with radius := p5.radius + 1 }
  { p6 with bulletDamage := p6.bulletDamage + 1 }

/-- The method `Player.addScore(points)`. -/
def addScore (p : Player) (points : ℚ) : Player :=
  let p1 := { p with score := p.score + points }
  let p2 := { p1 with experience := p1.experience + points }
  if p2.experience ≥ p2.experienceToNextLevel then p2.levelUp else p2

/-- The method `Player.takeDamage(damage)`: the player afterwards and the
returned boolean. -/
def takeDamage (p : Player) (damage : ℚ) : Player × Bool :=
  let p1 := { p with health := p.health - damage }
  if p1.health ≤ 0 then
    ({ p1 with markedForDeletion := true }, true)
  else (p1, false)

end Player

/-! ## game.js -/

/-- The entries of `upgradePool` in `Game.generateUpgrades`, in source order:
the eight generic upgrades, then the four class-specific ones. -/
inductive Upgrade where
  | increasedHealth
  | fasterMovement
  | higherDamage
  | rapidFire
  | bulletSpeed
  | tankSize
  | bulletSize
  | specialCooldown
  | tripleShot
  | extendedRange
  | spreadshot
  | explosiveRounds
deriving DecidableEq

/-- The `Game` object.  `randomCalls` is the number of `Math.random()` calls
made so far; an entry `none` of `availableUpgrades` is `undefined`. -/
structure Game where
  canvasWidth : ℚ
  canvasHeight : ℚ
  gameOver : Bool
  paused : Bool
  worldSize : ℚ
  currentLevel : ℕ
  maxLevel : ℕ
  scoreThresholds : List ℚ
  player : Player
  shapes : List Shape
  bullets : List Bullet
  enemies : List Enemy
  camera : Camera
  gridSize : ℚ
  maxShapes : ℕ
  shapeSpawnRate : ℚ
  maxEnemies : ℕ
  enemySpawnRate : ℚ
  enemySpawnDistance : ℚ
  showingUpgradeMenu : Bool
  availableUpgrades : List (Option Upgrade)
  upgradePoints : ℤ
  randomCalls : ℕ
deriving DecidableEq

namespace Upgrade

/-- The `apply` closure of an upgrade, as a function on the player. -/
def apply (u : Upgrade) (p : Player) : Player :=
  match u with
  | increasedHealth =>
    let p1 := { p with maxHealth := p.maxHealth + 25 }
    { p1 with health := p1.health + 25 }
  | fasterMovement => { p with speed := p.speed * 1.15 }
  | higherDamage => { p with bulletDamage := p.bulletDamage + 3 }
  | rapidFire => { p with shootingRate := max 5 ((⌊p.shootingRate * 0.85⌋ : ℤ) : ℚ) }
  | bulletSpeed => { p with bulletSpeed := p.bulletSpeed * 1.2 }
  | tankSize => { p with radius := p.radius * 1.1 }
  | bulletSize => p
  | specialCooldown => { p with specialMaxCooldown := p.specialMaxCooldown * 0.8 }
  | tripleShot => p
  | extendedRange => p
  | spreadshot => p
  | explosiveRounds => p

end Upgrade

namespace Game

/-- The loop of `spawnRandomShape` over `typeWeights`, started at index `i` with
the running value `rand`: the index at which it breaks, or `0` (the initial
`typeIndex`) when it runs to the end. -/
def drawTypeIndex : ℚ → List ℚ → ℕ → ℕ
  | _, [], _ => 0
  | rand, w :: ws, i => if rand ≤ w then i else drawTypeIndex (rand - w) ws (i + 1)

/-- The method `Game.spawnRandomShape()`. -/
def spawnRandomShape (m : JsMath) (g : Game) : Game :=
  if g.shapes.length ≥ g.maxShapes then g
  else
    let buffer : ℚ := 50
    let x := Utils.random m g.randomCalls buffer (g.worldSize - buffer)
    let y := Utils.random m (g.randomCalls + 1) buffer (g.worldSize - buffer)
    let g1 := { g with randomCalls := g.randomCalls + 2 }
    if Utils.distance m x y g1.player.x g1.player.y < 200 then g1
    else
      let types := ["square", "triangle", "pentagon"]
      let typeWeights : List ℚ := [70, 25, 5]
      let rand := m.random g1.randomCalls * 100
      let g2 := { g1 with randomCalls := g1.randomCalls + 1 }
      let typeIndex := drawTypeIndex rand typeWeights 0
      { g2 with shapes := g2.shapes ++ [Shape.new x y (types.getD typeIndex "square")] }

/-- The `do … while` loop of `spawnEnemy`, run for at most `fuel` iterations
from the `k`-th random call: the accepted point and the number of random calls
made, or `none` when `fuel` iterations all drew a point closer to the player
than `enemySpawnDistance`. -/
def spawnPoint (m : JsMath) (g : Game) : ℕ → ℕ → Option (ℚ × ℚ × ℕ)
  | 0, _ => none
  | fuel + 1, k =>
    let buffer : ℚ := 50
    let x := Utils.random m k buffer (g.worldSize - buffer)
    let y := Utils.random m (k + 1) buffer (g.worldSize - buffer)
    let distanceToPlayer := Utils.distance m x y g.player.x g.player.y
    if distanceToPlayer < g.enemySpawnDistance then spawnPoint m g fuel (k + 2)
    else some (x, y, k + 2)

/-- The method `Game.spawnEnemy()`, its loop bounded by `fuel`. -/
def spawnEnemy (m : JsMath) (fuel : ℕ) (g : Game) : Option Game :=
  if g.enemies.length ≥ g.maxEnemies then some g
  else
    match spawnPoint m g fuel g.randomCalls with
    | none => none
    | some (x, y, k) =>
      let rnd := m.random k
      let tier : ℕ :=
        if g.currentLevel ≤ 2 then 1
        else if g.currentLevel ≤ 4 then (if rnd < 0.7 then 1 else 2)
        else (if rnd < 0.5 then 1 else (if rnd < 0.8 then 2 else 3))
      some { g with enemies := g.enemies ++ [Enemy.new x y tier], randomCalls := k + 1 }

/-- The pool `upgradePool` built by `generateUpgrades`. -/
def upgradePool (p : Player) : List Upgrade :=
  let generic := [Upgrade.increasedHealth, Upgrade.fasterMovement, Upgrade.higherDamage,
    Upgrade.rapidFire, Upgrade.bulletSpeed, Upgrade.tankSize, Upgrade.bulletSize,
    Upgrade.specialCooldown]
  if p.hasChosenClass then
    if p.tankClass = "twin" then generic ++ [Upgrade.tripleShot]
    else if p.tankClass = "sniper" then generic ++ [Upgrade.extendedRange]
    else if p.tankClass = "machine" then generic ++ [Upgrade.spreadshot]
    else if p.tankClass = "destroyer" then generic ++ [Upgrade.explosiveRounds]
    else generic
  else generic

/-- The `while` loop of `generateUpgrades`: every iteration pushes one entry, so
from an empty `availableUpgrades` three iterations are the most it runs.  The
index is `Math.floor(Math.random() * poolCopy.length)`, never negative. -/
def drawUpgrades (m : JsMath) : ℕ → ℕ → List (Option Upgrade) → List Upgrade →
    List (Option Upgrade) × ℕ
  | 0, k, available, _ => (available, k)
  | fuel + 1, k, available, poolCopy =>
    if available.length < 3 ∧ poolCopy.length > 0 then
      let index := (⌊m.random k * poolCopy.length⌋ : ℤ).toNat
      drawUpgrades m fuel (k + 1) (available ++ [poolCopy.get? index]) (poolCopy.eraseIdx index)
    else (available, k)

/-- The method `Game.generateUpgrades()`. -/
def generateUpgrades (m : JsMath) (g : Game) : Game :=
  let drawn := drawUpgrades m 3 g.randomCalls [] (upgradePool g.player)
  { g with availableUpgrades := drawn.1, randomCalls := drawn.2 }

/-- The test of `showUpgradeMenu` that decides for the class-selection menu
(whose buttons call `setTankClass`) instead of the regular upgrades. -/
def offersClassSelection (g : Game) : Bool :=
  !g.player.hasChosenClass && decide (g.player.level ≥ 10)

/-- The method `Game.showUpgradeMenu()`; the menu itself is a DOM element. -/
def showUpgradeMenu (m : JsMath) (g : Game) : Game :=
  let g1 := { g with showingUpgradeMenu := true }
  let g2 := { g1 with paused := true }
  if offersClassSelection g2 then g2
  else generateUpgrades m g2

/-- The method `Game.levelUp()`. -/
def levelUp (m : JsMath) (g : Game) : Game :=
  showUpgradeMenu m { g with currentLevel := g.currentLevel + 1 }

/-- The method `Game.checkLevelProgress()`; a comparison with the `undefined`
read past the end of `scoreThresholds` is false. -/
def checkLevelProgress (m : JsMath) (g : Game) : Game :=
  match g.scoreThresholds.get? g.currentLevel with
  | some threshold =>
    if g.currentLevel < g.maxLevel ∧ g.player.score ≥ threshold then levelUp m g else g
  | none => g

/-- The loop `this.shapes.forEach(shape => …)` inside the bullet loop of
`Game.update`, for one bullet: the player, the bullet and the shapes
afterwards. -/
def hitShapes (m : JsMath) : Player → Bullet → List Shape → Player × Bullet × List Shape
  | player, bullet, [] => (player, bullet, [])
  | player, bullet, shape :: rest =>
    if !bullet.hasHit shape.id &&
        Utils.circleCollision m bullet.x bullet.y bullet.radius shape.x shape.y shape.radius then
      let hit := shape.takeDamage bullet.damage
      let player1 :=
        if hit.2 > 0 ∧ bullet.fromPlayer = true then player.addScore hit.2 else player
      let bullet1 := bullet.registerHit hit.1.id
      let later := hitShapes m player1 bullet1 rest
      (later.1, later.2.1, hit.1 :: later.2.2)
    else
      let later := hitShapes m player bullet rest
      (later.1, later.2.1, shape :: later.2.2)

/-- The loop `this.enemies.forEach(enemy => …)` inside the bullet loop of
`Game.update`, for one bullet: the player, `upgradePoints`, the bullet and the
enemies afterwards. -/
def hitEnemies (m : JsMath) :
    Player → ℤ → Bullet → List Enemy → Player × ℤ × Bullet × List Enemy
  | player, upgradePoints, bullet, [] => (player, upgradePoints, bullet, [])
  | player, upgradePoints, bullet, enemy :: rest =>
    if !bullet.hasHit enemy.id &&
        Utils.circleCollision m bullet.x bullet.y bullet.radius enemy.x enemy.y enemy.radius then
      let hit := enemy.takeDamage bullet.damage
      let credited : Player × ℤ :=
        if hit.2 > 0 then (player.addScore hit.2, upgradePoints + 1)
        else (player, upgradePoints)
      let bullet1 := bullet.registerHit hit.1.id
      let later := hitEnemies m credited.1 credited.2 bullet1 rest
      (later.1, later.2.1, later.2.2.1, hit.1 :: later.2.2.2)
    else
      let later := hitEnemies m player upgradePoints bullet rest
      (later.1, later.2.1, later.2.2.1, enemy :: later.2.2.2)

/-- The shape-collision part of the bullet loop body. -/
def bulletVsShapes (m : JsMath) (g : Game) (bullet : Bullet) : Game × Bullet :=
  let r := hitShapes m g.player bullet g.shapes
  ({ g with player := r.1, shapes := r.2.2 }, r.2.1)

/-- The enemy-collision part of the bullet loop body (only player bullets hit
enemies). -/
def bulletVsEnemies (m : JsMath) (g : Game) (bullet : Bullet) : Game × Bullet :=
  if bullet.fromPlayer then
    let r := hitEnemies m g.player g.upgradePoints bullet g.enemies
    ({ g with player := r.1, upgradePoints := r.2.1, enemies := r.2.2.2 }, r.2.2.1)
  else (g, bullet)

/-- The player-collision part of the bullet loop body (only enemy bullets hit
the player). -/
def bulletVsPlayer (m : JsMath) (g : Game) (bullet : Bullet) : Game × Bullet :=
  if !bullet.fromPlayer && !g.player.markedForDeletion then
    if Utils.circleCollision m bullet.x bullet.y bullet.radius
        g.player.x g.player.y g.player.radius then
      let hit := g.player.takeDamage bullet.damage
      let g1 := { g with player := hit.1 }
      let g2 := if hit.2 then { g1 with gameOver := true } else g1
      (g2, { bullet with markedForDeletion := true })
    else (g, bullet)
  else (g, bullet)

/-- The body of `this.bullets.forEach(bullet => …)` in `Game.update`. -/
def bulletStep (m : JsMath) (g : Game) (bullet : Bullet) : Game × Bullet :=
  let b := bullet.update m
  if b.x < 0 ∨ b.x > g.worldSize ∨ b.y < 0 ∨ b.y > g.worldSize then
    (g, { b with markedForDeletion := true })
  else
    let afterShapes := bulletVsShapes m g b
    let afterEnemies := bulletVsEnemies m afterShapes.1 afterShapes.2
    bulletVsPlayer m afterEnemies.1 afterEnemies.2

/-- The loop `this.bullets.forEach(bullet => …)` in `Game.update`: the game and
the bullets afterwards. -/
def forEachBullet (m : JsMath) : Game → List Bullet → Game × List Bullet
  | g, [] => (g, [])
  | g, bullet :: rest =>
    let stepped := bulletStep m g bullet
    let later := forEachBullet m stepped.1 rest
    (later.1, stepped.2 :: later.2)

/-- The loop `this.enemies.forEach(enemy => enemy.update(…))` in `Game.update`:
the enemies, the bullet array and the number of random calls afterwards. -/
def forEachEnemy (m : JsMath) (player : Player) (worldSize : ℚ) :
    ℕ → List Bullet → List Enemy → List Enemy × List Bullet × ℕ
  | k, bullets, [] => ([], bullets, k)
  | k, bullets, enemy :: rest =>
    let updated := enemy.update m k player.x player.y worldSize bullets
    let later := forEachEnemy m player worldSize updated.2.2 updated.2.1 rest
    (updated.1 :: later.1, later.2.1, later.2.2)

/-- The first part of an ungated `Game.update`: the camera follows the player,
the player is updated and shoots, every enemy is updated. -/
def updateActors (m : JsMath) (g : Game) : Game :=
  let g1 := { g with camera := { g.camera with x := g.player.x - g.canvasWidth / 2 } }
  let g2 := { g1 with camera := { g1.camera with y := g1.player.y - g1.canvasHeight / 2 } }
  let g3 := { g2 with player := g2.player.update m g2.camera }
  let shot := g3.player.shoot m g3.randomCalls g3.bullets
  let g4 := { g3 with player := shot.1, bullets := shot.2.1, randomCalls := shot.2.2 }
  let acted := forEachEnemy m g4.player g4.worldSize g4.randomCalls g4.bullets g4.enemies
  { g4 with enemies := acted.1, bullets := acted.2.1, randomCalls := acted.2.2 }

/-- The shape-spawning part of `Game.update`; `Math.random()` is called before
the length test. -/
def updateShapeSpawn (m : JsMath) (g : Game) : Game :=
  let drawn := m.random g.randomCalls
  let g1 := { g with randomCalls := g.randomCalls + 1 }
  if drawn < g1.shapeSpawnRate ∧ g1.shapes.length < g1.maxShapes then spawnRandomShape m g1
  else g1

/-- The enemy-spawning part of `Game.update`. -/
def updateEnemySpawn (m : JsMath) (fuel : ℕ) (g : Game) : Option Game :=
  let drawn := m.random g.randomCalls
  let g1 := { g with randomCalls := g.randomCalls + 1 }
  if drawn < g1.enemySpawnRate ∧ g1.enemies.length < g1.maxEnemies then spawnEnemy m fuel g1
  else some g1

/-- The bullet part of `Game.update`: bullets marked for deletion are dropped,
then every remaining bullet is updated and collided. -/
def updateBullets (m : JsMath) (g : Game) : Game :=
  let g1 := { g with bullets := g.bullets.filter (fun bullet => !bullet.markedForDeletion) }
  let looped := forEachBullet m g1 g1.bullets
  { looped.1 with bullets := looped.2 }

/-- The last part of `Game.update`: marked shapes and enemies are dropped and
the level progress is checked. -/
def updateCleanup (m : JsMath) (g : Game) : Game :=
  let g1 := { g with shapes := g.shapes.filter (fun shape => !shape.markedForDeletion) }
  let g2 := { g1 with enemies := g1.enemies.filter (fun enemy => !enemy.markedForDeletion) }
  checkLevelProgress m g2

/-- The method `Game.update()`, the loop of `spawnEnemy` bounded by `fuel`;
`none` when that loop did not finish within `fuel` iterations. -/
def update (m : JsMath) (fuel : ℕ) (g : Game) : Option Game :=
  if g.paused || g.gameOver || g.showingUpgradeMenu then some g
  else
    match updateEnemySpawn m fuel (updateShapeSpawn m (updateActors m g)) with
    | none => none
    | some spawned => some (updateCleanup m (updateBullets m spawned))

/-- The method `Game.applyUpgrade(index)` for a numeric index; `none` is the
`TypeError` raised by calling `apply` on an `undefined` entry. -/
def applyUpgrade (g : Game) (index : ℤ) : Option Game :=
  if g.upgradePoints > 0 ∧ index ≥ 0 ∧ index < g.availableUpgrades.length then
    match g.availableUpgrades.get? index.toNat with
    | some (some upgrade) =>
      let g1 := { g with player := upgrade.apply g.player }
      some { g1 with upgradePoints := g1.upgradePoints - 1 }
    | _ => none
  else some g

/-- The field initialisers of the `Game` constructor, up to (not including) the
call of `initShapes()`; the canvas has the size of the window. -/
def fields (canvasWidth canvasHeight : ℚ) : Game :=
  let worldSize : ℚ := 2000
  let player := Player.new (worldSize / 2) (worldSize / 2)
  { canvasWidth := canvasWidth
    canvasHeight := canvasHeight
    gameOver := false
    paused := false
    worldSize := worldSize
    currentLevel := 1
    maxLevel := 5
    scoreThresholds := [0, 1000, 3000, 7000, 15000]
    player := player
    shapes := []
    bullets := []
    enemies := []
    camera := { x := player.x - canvasWidth / 2, y := player.y - canvasHeight / 2 }
    gridSize := 40
    maxShapes := 100
    shapeSpawnRate := 0.01
    maxEnemies := 10
    enemySpawnRate := 0.002
    enemySpawnDistance := 800
    showingUpgradeMenu := false
    availableUpgrades := []
    upgradePoints := 0
    randomCalls := 0 }

end Game

/-! ## Scenarios -/

/-- Scenario for C3: a piercing player bullet that moves to `(320, 300)`, where
it overlaps two pentagons centred at `(300, 300)` and `(340, 300)`. -/
def pierceScene : Game :=
  { Game.fields 800 600 with
    shapes := [Shape.new 300 300 "pentagon", Shape.new 340 300 "pentagon"]
    bullets := [{ Bullet.new 315 300 0 5 5 "#00FFFF" true with piercing := true }] }

/-- Scenario for C1: a non-piercing player bullet (damage 5) that moves to
`(320, 300)`, where it overlaps two pentagons centred at `(300, 300)` and
`(340, 300)`. -/
def twoShapesScene : Game :=
  { Game.fields 800 600 with
    shapes := [Shape.new 300 300 "pentagon", Shape.new 340 300 "pentagon"]
    bullets := [Bullet.new 315 300 0 5 5 "#00B2E1" true] }

/-- Scenario for C2: a tier-1 enemy (250 points) with 4 health left at
`(1060, 1080)`, fleeing from the player at `(1000, 1000)`; this tick it moves
to `(1061.8, 1082.4)`.  The two bullets of a twin shot (damage 4 each, 8 apart)
move to `(1061.8, 1078.4)` and `(1061.8, 1086.4)`, both within reach of it. -/
def twinKillScene : Game :=
  { Game.fields 800 600 with
    enemies := [{ Enemy.new 1060 1080 1 with health := 4 }]
    bullets := [Bullet.new 1054.8 1078.4 0 7 4 "#00B2E1" true,
      Bullet.new 1054.8 1086.4 0 7 4 "#00B2E1" true] }

/-- Scenario for C5: the player of a new game (health 100, at `(1000, 1000)`)
and three enemy-owned bullets of damage 40 flying towards it at speed 5, which
reach it in three successive ticks. -/
def threeHitsScene : Game :=
  { Game.fields 800 600 with
    bullets := [Bullet.new 976 1000 0 5 40 "#F14E54" false,
      Bullet.new 971 1000 0 5 40 "#F14E54" false,
      Bullet.new 966 1000 0 5 40 "#F14E54" false] }

/-- What C5 observes of a game: the player's health, the player's deletion mark
and `gameOver`. -/
def lifeSigns (g : Game) : ℚ × Bool × Bool :=
  (g.player.health, g.player.markedForDeletion, g.gameOver)

/-- Scenario for C20: a new game with one upgrade point and the three offered
upgrades "Higher Damage", "Tank Size" and "Bullet Speed". -/
def upgradeScene : Game :=
  { Game.fields 800 600 with
    availableUpgrades := [some Upgrade.higherDamage, some Upgrade.tankSize,
      some Upgrade.bulletSpeed]
    upgradePoints := 1 }

/-- The square root of `m` is exact at `a`: its value is the nonnegative
rational whose square is `a`. -/
def SqrtExactAt (m : JsMath) (a : ℚ) : Prop :=
  0 ≤ m.sqrt a ∧ m.sqrt a * m.sqrt a = a

/-- A `Math` object whose `Math.sqrt(2)` and `Math.sqrt(18)` are the values of
IEEE-754 double precision, `6369051672525773 / 2 ^ 52` (written
`1.4142135623730951`, above the real square root of 2) and
`4776788754394329 / 2 ^ 50` (written `4.242640687119285`, below the real square
root of 18); otherwise it is `refMath`. -/
def doubleMath : JsMath :=
  { refMath with
    sqrt := fun a =>
      if a = 2 then 6369051672525773 / 4503599627370496
      else if a = 18 then 4776788754394329 / 1125899906842624
      else ratSqrt a }

/-- A `Math` object whose first two `Math.random()` values put the candidate
point of `spawnRandomShape` at `(1000, 1150)`, exactly 150 units from a player
at the centre of the world; otherwise it is `refMath`. -/
def nearMath : JsMath :=
  { refMath with random := fun k => if k = 1 then 11 / 19 else 1 / 2 }

/-- The type that the draw of `spawnRandomShape` selects for the draw value
`rand = Math.random() * 100`: the entry of `types` at the index found by the
loop over `typeWeights`. -/
def drawnType (rand : ℚ) : String :=
  ["square", "triangle", "pentagon"].getD (Game.drawTypeIndex rand [70, 25, 5] 0) "square"

/-- The only changes of the player's health and deletion mark that scoring can
cause: the mark stays, `maxHealth` does not drop, and the health either stays
(with `maxHealth`) or equals the new `maxHealth` (the heal of a level-up). -/
def HealsOnly (p q : Player) : Prop :=
  q.markedForDeletion = p.markedForDeletion ∧ p.maxHealth ≤ q.maxHealth ∧
  ((q.health = p.health ∧ q.maxHealth = p.maxHealth) ∨ q.health = q.maxHealth)

/-- Scenario for C24: a player with 50 of 100 health, 5 experience short of its
first level-up, and a player bullet (damage 5) that moves onto a pentagon with 5
health left. -/
def healScene : Game :=
  { Game.fields 800 600 with
    player := { Player.new 1000 1000 with health := 50, experience := 95, score := 95 }
    shapes := [{ Shape.new 300 300 "pentagon" with health := 5 }]
    bullets := [Bullet.new 295 300 0 5 5 "#00B2E1" true] }

/-- Scenario for C26: a tier-1 enemy (speed 2) with 4 of 100 health at
`(1238.8, 1318.4)`, 398 units from a player standing at `(1000, 1000)`. -/
def staleFleeEnemy : Enemy :=
  { Enemy.new 1238.8 1318.4 1 with health := 4 }

/-- The enemy of C26 after one `Enemy.update` (it fled to `(1240.6, 1320.8)`,
401 units from the player). -/
def staleFleeEnemy1 : Enemy :=
  (staleFleeEnemy.update refMath 0 1000 1000 2000 []).1

/-- The enemy of C26 after a second `Enemy.update`, a wander tick. -/
def staleFleeEnemy2 : Enemy :=
  (staleFleeEnemy1.update refMath 0 1000 1000 2000 []).1

/-- The timers of `specialMachineBarrage` fire in the order in which they were
scheduled (all have the same delay of 3000 ms): the player after all of them. -/
def fireTimers (p : Player) (timers : Player.Timers) : Player :=
  timers.foldl Player.barrageRevert p

/-- Scenario for C28: a new player that chose "machine" and applied the
"Special Cooldown" upgrade three times (`specialMaxCooldown` 153.6). -/
def barragePlayer : Player :=
  Upgrade.specialCooldown.apply (Upgrade.specialCooldown.apply
    (Upgrade.specialCooldown.apply ((Player.new 1000 1000).setTankClass "machine")))

/-- The player after the given number of `Player.update` ticks (camera at the
origin). -/
def idleTicks (m : JsMath) : ℕ → Player → Player
  | 0, p => p
  | n + 1, p => idleTicks m n (p.update m ⟨0, 0⟩)

/-- Scenario for C28: the first barrage, 154 ticks (less than the 180 ticks of
3 seconds at 60 frames a second), then the second barrage: the player and the
pending timers. -/
def secondBarrage : Player × List Bullet × Player.Timers :=
  let first := barragePlayer.activateSpecial refMath [] []
  (idleTicks refMath 154 first.1).activateSpecial refMath first.2.1 first.2.2

/-- Scenario for C29: a tier-1 enemy with 4 of 100 health in the corner
`(15, 15)` of the world, where a new player (radius 15 as well) stands too. -/
def cornerEnemy : Enemy :=
  { Enemy.new 15 15 1 with health := 4 }

/-- The threshold `experienceToNextLevel` of a player after `k` level-ups from
the initial state: 100, then `floor(1.5 *` the previous one`)` as in
`Player.levelUp`. -/
def thresholdAfter : ℕ → ℚ
  | 0 => 100
  | k + 1 => ((⌊thresholdAfter k * 1.5⌋ : ℤ) : ℚ)

/-- The sum of the thresholds consumed by the first `k` level-ups. -/
def consumedAfter : ℕ → ℚ
  | 0 => 0
  | k + 1 => consumedAfter k + thresholdAfter k

/-- The player after a sequence of `addScore` calls, one for each entry of
`points`. -/
def addScores (p : Player) (points : List ℚ) : Player :=
  points.foldl Player.addScore p

/-- The bookkeeping that `addScore` maintains from the initial state: the
level is at least 1, the threshold is the one after `level - 1` level-ups, the
score is the experience plus the thresholds consumed so far, and the experience
is not negative. -/
def ScoreAccount (p : Player) : Prop :=
  1 ≤ p.level ∧ p.experienceToNextLevel = thresholdAfter (p.level - 1) ∧
  p.score = p.experience + consumedAfter (p.level - 1) ∧ 0 ≤ p.experience

/-- Scenario for C30: the game at level 3 whose player, without a class, went
through eight level-ups and then gained 2079 points (score 6990, level 9), and
now gains the 500 points of a tier-2 enemy. -/
def jumpScene : Game :=
  { Game.fields 800 600 with
    currentLevel := 3
    player := addScores (Player.new 1000 1000)
      [100, 150, 225, 337, 505, 757, 1135, 1702, 2079, 500] }

/-! ## The reference `Math` object -/

/-- The values of `refMath` that the scenarios rely on agree with JavaScript:
the square roots of the squared distances that occur, `cos 0`, `sin 0`, and a
`Math.random()` value above both spawn rates. -/
theorem refMath_values :
    refMath.sqrt 0 = 0 ∧ refMath.sqrt 16 = 4 ∧ refMath.sqrt 361 = 19 ∧
    refMath.sqrt 400 = 20 ∧ refMath.sqrt 576 = 24 ∧ refMath.sqrt 10000 = 100 ∧
    refMath.sqrt 40000 = 200 ∧ refMath.cos 0 = 1 ∧ refMath.sin 0 = 0 ∧
    (∀ k, ¬ refMath.random k < 0.01 ∧ ¬ refMath.random k < 0.002) := by
  refine ⟨by decide!, by decide!, by decide!, by decide!, by decide!, by decide!, by decide!,
    by decide!, by decide!, fun k => ?_⟩
  simp only [refMath]
  constructor <;> norm_num

/-! ## Damage and hit bookkeeping (C3, C4, C6, C7) -/

/-- C3 (fails on the code): no constructor assigns `id`, so a piercing bullet
that registered a hit on one shape or enemy reports `hasHit` for every other
constructor-built shape or enemy as well; in `Game.update` a piercing bullet
overlapping two pentagons damages the first (30 to 25) and skips the second. -/
theorem C3_piercing_hit_blocks_other_targets :
    (∀ (b : Bullet) (x y x1 y1 : ℚ) (type type1 : String) (tier tier1 : ℕ),
      (({ b with piercing := true }).registerHit (Shape.new x y type).id).hasHit
          (Shape.new x1 y1 type1).id = true ∧
      (({ b with piercing := true }).registerHit (Shape.new x y type).id).hasHit
          (Enemy.new x1 y1 tier1).id = true ∧
      (({ b with piercing := true }).registerHit (Enemy.new x y tier).id).hasHit
          (Enemy.new x1 y1 tier1).id = true) ∧
    (Game.update refMath 0 pierceScene).map (fun g => g.shapes.map Shape.health)
      = some [25, 30] := by
  refine ⟨fun b x y x1 y1 type type1 tier tier1 => ?_, by decide!⟩
  simp [Bullet.registerHit, Bullet.hasHit, Shape.new, Enemy.new]

/-- C4 (as stated, fails): a square (health 10) hit for 15, a tier-1 enemy
(health 100) hit for 120 and a new player (health 100) hit for 140 all end with
negative stored health. -/
theorem C4_health_negative_counterexample :
    (0 : ℚ) ≤ 15 ∧ ((Shape.new 0 0 "square").takeDamage 15).1.health < 0 ∧
    ((Enemy.new 0 0 1).takeDamage 120).1.health < 0 ∧
    ((Player.new 0 0).takeDamage 140).1.health < 0 := by
  decide!

/-- C4 (amended): for every shape, enemy and player and every damage `d ≥ 0`,
the health stored by `takeDamage(d)` is the old health minus `d` (no clamping),
it is `≥ 0` exactly when `d` is at most the old health, and whenever it is
`≤ 0` (in particular negative) the entity is marked for deletion. -/
theorem C4_health_after_takeDamage (s : Shape) (e : Enemy) (p : Player) (d : ℚ)
    (hd : 0 ≤ d) :
    ((s.takeDamage d).1.health = s.health - d ∧
      (0 ≤ (s.takeDamage d).1.health ↔ d ≤ s.health) ∧
      ((s.takeDamage d).1.health ≤ 0 → (s.takeDamage d).1.markedForDeletion = true)) ∧
    ((e.takeDamage d).1.health = e.health - d ∧
      (0 ≤ (e.takeDamage d).1.health ↔ d ≤ e.health) ∧
      ((e.takeDamage d).1.health ≤ 0 → (e.takeDamage d).1.markedForDeletion = true)) ∧
    ((p.takeDamage d).1.health = p.health - d ∧
      (0 ≤ (p.takeDamage d).1.health ↔ d ≤ p.health) ∧
      ((p.takeDamage d).1.health ≤ 0 → (p.takeDamage d).1.markedForDeletion = true)) ∧
    (s.takeDamage d).1.health ≤ s.health ∧ (e.takeDamage d).1.health ≤ e.health ∧
    (p.takeDamage d).1.health ≤ p.health := by
  have hs : (s.takeDamage d).1.health = s.health - d := by
    unfold Shape.takeDamage; dsimp only; split <;> rfl
  have he : (e.takeDamage d).1.health = e.health - d := by
    unfold Enemy.takeDamage; dsimp only; split <;> rfl
  have hp : (p.takeDamage d).1.health = p.health - d := by
    unfold Player.takeDamage; dsimp only; split <;> rfl
  refine ⟨⟨hs, ?_, ?_⟩, ⟨he, ?_, ?_⟩, ⟨hp, ?_, ?_⟩, ?_, ?_, ?_⟩
  · rw [hs]; exact sub_nonneg
  · unfold Shape.takeDamage; dsimp only; split
    · intro _; rfl
    · intro h; exact absurd h (by assumption)
  · rw [he]; exact sub_nonneg
  · unfold Enemy.takeDamage; dsimp only; split
    · intro _; rfl
    · intro h; exact absurd h (by assumption)
  · rw [hp]; exact sub_nonneg
  · unfold Player.takeDamage; dsimp only; split
    · intro _; rfl
    · intro h; exact absurd h (by assumption)
  · rw [hs]; linarith
  · rw [he]; linarith
  · rw [hp]; linarith

/-- C4 (amended), at a square hit for 15, a tier-1 enemy and a new player. -/
theorem C4_health_after_takeDamage_witness :
    (0 : ℚ) ≤ 15 ∧
    ((Shape.new 0 0 "square").takeDamage 15).1.health = (Shape.new 0 0 "square").health - 15 ∧
    ((Shape.new 0 0 "square").takeDamage 15).1.markedForDeletion = true :=
  have h := C4_health_after_takeDamage (Shape.new 0 0 "square") (Enemy.new 0 0 1)
    (Player.new 0 0) 15 (by norm_num)
  ⟨by norm_num, h.1.1, h.1.2.2 (by decide!)⟩

/-- C6: for a shape and an enemy with health `h > 0` that are not marked for
deletion, `takeDamage(d)` with `d ≥ h` returns the points value and marks the
entity; with `d < h` it returns 0, leaves the mark false and lowers the health
by exactly `d`. -/
theorem C6_takeDamage_contract (s : Shape) (e : Enemy) (d : ℚ)
    (_hs : 0 < s.health) (hsm : s.markedForDeletion = false)
    (_he : 0 < e.health) (hem : e.markedForDeletion = false) :
    (s.health ≤ d →
      (s.takeDamage d).2 = s.points ∧ (s.takeDamage d).1.markedForDeletion = true) ∧
    (d < s.health →
      (s.takeDamage d).2 = 0 ∧ (s.takeDamage d).1.markedForDeletion = false ∧
      (s.takeDamage d).1.health = s.health - d) ∧
    (e.health ≤ d →
      (e.takeDamage d).2 = e.points ∧ (e.takeDamage d).1.markedForDeletion = true) ∧
    (d < e.health →
      (e.takeDamage d).2 = 0 ∧ (e.takeDamage d).1.markedForDeletion = false ∧
      (e.takeDamage d).1.health = e.health - d) := by
  refine ⟨fun h => ?_, fun h => ?_, fun h => ?_, fun h => ?_⟩
  · have hle : s.health - d ≤ 0 := by linarith
    simp [Shape.takeDamage, hle]
  · have hlt : ¬ s.health - d ≤ 0 := by linarith
    simp [Shape.takeDamage, hlt, hsm]
  · have hle : e.health - d ≤ 0 := by linarith
    simp [Enemy.takeDamage, hle]
  · have hlt : ¬ e.health - d ≤ 0 := by linarith
    simp [Enemy.takeDamage, hlt, hem]

/-- C6 at a new pentagon (health 30, 100 points) and a new tier-2 enemy (health
200, 500 points), both hit for 30: the pentagon dies, the enemy survives with
health 170. -/
theorem C6_takeDamage_contract_witness :
    ((Shape.new 0 0 "pentagon").takeDamage 30).2 = 100 ∧
    ((Shape.new 0 0 "pentagon").takeDamage 30).1.markedForDeletion = true ∧
    ((Enemy.new 0 0 2).takeDamage 30).2 = 0 ∧
    ((Enemy.new 0 0 2).takeDamage 30).1.markedForDeletion = false ∧
    ((Enemy.new 0 0 2).takeDamage 30).1.health = 170 :=
  have h := C6_takeDamage_contract (Shape.new 0 0 "pentagon") (Enemy.new 0 0 2) 30
    (by decide!) (by decide!) (by decide!) (by decide!)
  have hs := h.1 (by decide!)
  have he := h.2.2.2 (by decide!)
  ⟨hs.1.trans (by decide!), hs.2, he.1, he.2.1, he.2.2.trans (by decide!)⟩

/-- C7: `registerHit(e)` marks every non-piercing bullet for deletion whatever
`e.id` is; on a piercing bullet it leaves the mark unchanged and `hasHit(e)` is
true for the same entity afterwards. -/
theorem C7_registerHit_contract (b : Bullet) (entityId : Option ℕ) :
    (b.piercing = false → (b.registerHit entityId).markedForDeletion = true) ∧
    (b.piercing = true →
      (b.registerHit entityId).markedForDeletion = b.markedForDeletion ∧
      (b.registerHit entityId).hasHit entityId = true) := by
  refine ⟨fun h => ?_, fun h => ?_⟩
  · simp [Bullet.registerHit, h]
  · simp [Bullet.registerHit, Bullet.hasHit, h]

/-- C7 at a new (non-piercing) bullet and at its piercing variant, for the
`id` of a new square. -/
theorem C7_registerHit_contract_witness :
    ((Bullet.new 0 0 0 7 5 "#00B2E1" true).registerHit
      (Shape.new 0 0 "square").id).markedForDeletion = true ∧
    (({ Bullet.new 0 0 0 14 25 "#00FFFF" true with piercing := true }).registerHit
      (Shape.new 0 0 "square").id).markedForDeletion = false ∧
    (({ Bullet.new 0 0 0 14 25 "#00FFFF" true with piercing := true }).registerHit
      (Shape.new 0 0 "square").id).hasHit (Shape.new 0 0 "square").id = true :=
  have h := (C7_registerHit_contract { Bullet.new 0 0 0 14 25 "#00FFFF" true with
    piercing := true } (Shape.new 0 0 "square").id).2 rfl
  ⟨(C7_registerHit_contract (Bullet.new 0 0 0 7 5 "#00B2E1" true)
      (Shape.new 0 0 "square").id).1 rfl, h.1, h.2⟩

/-! ## Scoring (C9, C10) -/

/-- C9 (as stated, fails): a new player (experience 0, below the threshold
100) given 250 points, the value of a tier-1 enemy, ends at level 2, not 3,
with experience 150 and threshold 150: the experience is not below the
threshold, the second crossed threshold produced no level-up.  The next call,
even with 0 points, takes it. -/
theorem C9_second_threshold_not_taken_counterexample :
    (Player.new 1000 1000).experience < (Player.new 1000 1000).experienceToNextLevel ∧
    (0 : ℚ) ≤ 250 ∧
    ((Player.new 1000 1000).addScore 250).level = 2 ∧
    ((Player.new 1000 1000).addScore 250).experience = 150 ∧
    ((Player.new 1000 1000).addScore 250).experienceToNextLevel = 150 ∧
    ¬ ((Player.new 1000 1000).addScore 250).experience
        < ((Player.new 1000 1000).addScore 250).experienceToNextLevel ∧
    (((Player.new 1000 1000).addScore 250).addScore 0).level = 3 := by
  decide!

/-- C9 (amended): `addScore` triggers at most one level-up per call.  The call
raises the level by one exactly when `experience + points` reaches the
threshold `T = experienceToNextLevel`, and leaves it otherwise.  Without a
level-up the experience stays below the threshold; after a level-up it is below
the new threshold exactly when `experience + points - T < floor(1.5 * T)`.  A
threshold that is still crossed after the call is taken by the next call, for
any points `≥ 0`. -/
theorem C9_addScore_single_level_up (p : Player) (points : ℚ) :
    ((p.addScore points).level = p.level ∨ (p.addScore points).level = p.level + 1) ∧
    ((p.addScore points).level = p.level + 1
      ↔ p.experienceToNextLevel ≤ p.experience + points) ∧
    (p.experience + points < p.experienceToNextLevel →
      (p.addScore points).experience < (p.addScore points).experienceToNextLevel) ∧
    (p.experienceToNextLevel ≤ p.experience + points →
      ((p.addScore points).experience < (p.addScore points).experienceToNextLevel
        ↔ p.experience + points - p.experienceToNextLevel
            < ((⌊p.experienceToNextLevel * 1.5⌋ : ℤ) : ℚ))) ∧
    (∀ q : ℚ, 0 ≤ q →
      (p.addScore points).experienceToNextLevel ≤ (p.addScore points).experience →
      ((p.addScore points).addScore q).level = (p.addScore points).level + 1) := by
  have hnext : ∀ (r : Player) (q : ℚ), 0 ≤ q → r.experienceToNextLevel ≤ r.experience →
      (r.addScore q).level = r.level + 1 := by
    intro r q hq hr
    have hge : r.experience + q ≥ r.experienceToNextLevel := by
      show r.experienceToNextLevel ≤ r.experience + q
      linarith
    simp [Player.addScore, hge, Player.levelUp]
  by_cases h : p.experienceToNextLevel ≤ p.experience + points
  · have hge : p.experience + points ≥ p.experienceToNextLevel := h
    have hlev : (p.addScore points).level = p.level + 1 := by
      simp [Player.addScore, hge, Player.levelUp]
    have hexp : (p.addScore points).experience
        = p.experience + points - p.experienceToNextLevel := by
      simp [Player.addScore, hge, Player.levelUp]
    have hthr : (p.addScore points).experienceToNextLevel
        = ((⌊p.experienceToNextLevel * 1.5⌋ : ℤ) : ℚ) := by
      simp [Player.addScore, hge, Player.levelUp]
    refine ⟨Or.inr hlev, ⟨fun _ => h, fun _ => hlev⟩, fun hlt => ?_, fun _ => ?_,
      fun q hq hr => hnext _ q hq hr⟩
    · exact absurd h (not_le.mpr hlt)
    · rw [hexp, hthr]
  · have hlt : ¬ p.experience + points ≥ p.experienceToNextLevel := h
    have hlev : (p.addScore points).level = p.level := by
      simp [Player.addScore, hlt]
    have hexp : (p.addScore points).experience = p.experience + points := by
      simp [Player.addScore, hlt]
    have hthr : (p.addScore points).experienceToNextLevel = p.experienceToNextLevel := by
      simp [Player.addScore, hlt]
    refine ⟨Or.inl hlev, ⟨fun hl => ?_, fun hge => absurd hge h⟩, fun hl => ?_,
      fun hge => absurd hge h, fun q hq hr => hnext _ q hq hr⟩
    · rw [hlev] at hl
      omega
    · rw [hexp, hthr]
      exact hl

/-- C10 (as stated, fails): a new player given 90 points and then 20 points has
experience 10 after the second call, less than the 90 before it. -/
theorem C10_experience_drops_counterexample :
    (0 : ℚ) ≤ 20 ∧ ((Player.new 1000 1000).addScore 90).experience = 90 ∧
    (((Player.new 1000 1000).addScore 90).addScore 20).experience = 10 ∧
    (((Player.new 1000 1000).addScore 90).addScore 20).experience
      < ((Player.new 1000 1000).addScore 90).experience := by
  decide!

/-- C10 (amended): for every player and every `points ≥ 0`, the score after
`addScore(points)` is the score before plus `points`, hence not lower; the
experience is not lower when the call triggers no level-up
(`experience + points < experienceToNextLevel`), and is
`experience + points - experienceToNextLevel` when it triggers one. -/
theorem C10_addScore_monotone (p : Player) (points : ℚ) (hp : 0 ≤ points) :
    (p.addScore points).score = p.score + points ∧
    p.score ≤ (p.addScore points).score ∧
    (p.experience + points < p.experienceToNextLevel →
      (p.addScore points).experience = p.experience + points ∧
      p.experience ≤ (p.addScore points).experience) ∧
    (p.experienceToNextLevel ≤ p.experience + points →
      (p.addScore points).experience
        = p.experience + points - p.experienceToNextLevel) := by
  have hscore : (p.addScore points).score = p.score + points := by
    unfold Player.addScore; dsimp only; split <;> rfl
  refine ⟨hscore, by rw [hscore]; linarith, fun h => ?_, fun h => ?_⟩
  · have hlt : ¬ p.experience + points ≥ p.experienceToNextLevel := not_le.mpr h
    simp [Player.addScore, hlt, hp]
  · have hge : p.experience + points ≥ p.experienceToNextLevel := h
    simp [Player.addScore, hge, Player.levelUp]

/-- C10 (amended) at a new player given 90 points. -/
theorem C10_addScore_monotone_witness :
    (0 : ℚ) ≤ 90 ∧ (Player.new 1000 1000).score ≤ ((Player.new 1000 1000).addScore 90).score ∧
    (Player.new 1000 1000).experience ≤ ((Player.new 1000 1000).addScore 90).experience :=
  have h := C10_addScore_monotone (Player.new 1000 1000) 90 (by norm_num)
  ⟨by norm_num, h.2.1, (h.2.2.1 (by decide!)).2⟩

/-! ## Collisions in `Game.update` (C1, C2, C5) -/

/-- C1 (fails on the code): the shape loop of `Game.update` does not stop at the
first hit.  One non-piercing bullet of damage 5 overlapping two pentagons
damages both in a single tick (health 30 to 25 each); in general the shape loop
calls `takeDamage` on both of any two shapes that a non-piercing bullet
overlaps. -/
theorem C1_nonpiercing_bullet_damages_two_shapes :
    twoShapesScene.bullets.map Bullet.piercing = [false] ∧
    twoShapesScene.shapes.map Shape.health = [30, 30] ∧
    (Game.update refMath 0 twoShapesScene).map (fun g => g.shapes.map Shape.health)
      = some [25, 25] ∧
    (∀ (m : JsMath) (player : Player) (bullet : Bullet) (s1 s2 : Shape),
      bullet.piercing = false →
      Utils.circleCollision m bullet.x bullet.y bullet.radius s1.x s1.y s1.radius = true →
      Utils.circleCollision m bullet.x bullet.y bullet.radius s2.x s2.y s2.radius = true →
      (Game.hitShapes m player bullet [s1, s2]).2.2
        = [(s1.takeDamage bullet.damage).1, (s2.takeDamage bullet.damage).1]) := by
  refine ⟨by decide!, by decide!, by decide!, fun m player bullet s1 s2 hb h1 h2 => ?_⟩
  simp [Game.hitShapes, Bullet.hasHit, Bullet.registerHit, hb, h1, h2]

/-- C2 (fails on the code): the enemy loop of `Game.update` does not skip an
enemy that is already dead.  One tier-1 enemy (250 points) overlapped by the two
bullets of a twin shot in the tick of its death is credited twice: the score
rises by 500 and `upgradePoints` by 2; in general an enemy that is already dead
and marked for deletion is credited again by every further player bullet that
overlaps it. -/
theorem C2_enemy_credited_twice :
    twinKillScene.enemies.map Enemy.points = [250] ∧
    twinKillScene.player.score = 0 ∧ twinKillScene.upgradePoints = 0 ∧
    (Game.update refMath 0 twinKillScene).map
        (fun g => (g.player.score, g.upgradePoints, g.enemies.length))
      = some (500, 2, 0) ∧
    (∀ (m : JsMath) (player : Player) (upgradePoints : ℤ) (bullet : Bullet) (enemy : Enemy),
      enemy.markedForDeletion = true → enemy.health ≤ 0 → 0 ≤ bullet.damage →
      0 < enemy.points → bullet.piercing = false →
      Utils.circleCollision m bullet.x bullet.y bullet.radius
        enemy.x enemy.y enemy.radius = true →
      (Game.hitEnemies m player upgradePoints bullet [enemy]).1
        = player.addScore enemy.points ∧
      (Game.hitEnemies m player upgradePoints bullet [enemy]).2.1 = upgradePoints + 1) := by
  refine ⟨by decide!, by decide!, by decide!, by decide!,
    fun m player upgradePoints bullet enemy _ hh hd hp hb hc => ?_⟩
  have hle : enemy.health - bullet.damage ≤ 0 := by linarith
  simp [Game.hitEnemies, Bullet.hasHit, Enemy.takeDamage, hb, hc, hle, hp]

/-- C5: `Player.takeDamage(d)` lowers the health by exactly `d` and returns true,
with the player marked for deletion, exactly when the resulting health is
`≤ 0`.  A player with health 100 hit three times for 40 has health 60, then 20
(alive both times), then -20 with the result true; and when the three hits come
from enemy bullets in three successive `Game.update` ticks, `gameOver` is set
in the third tick. -/
theorem C5_player_takeDamage :
    (∀ (p : Player) (d : ℚ),
      (p.takeDamage d).1.health = p.health - d ∧
      ((p.takeDamage d).2 = true ↔ p.health - d ≤ 0) ∧
      ((p.takeDamage d).2 = true → (p.takeDamage d).1.markedForDeletion = true) ∧
      ((p.takeDamage d).2 = false →
        (p.takeDamage d).1.markedForDeletion = p.markedForDeletion)) ∧
    (((Player.new 1000 1000).takeDamage 40).1.health = 60 ∧
      ((Player.new 1000 1000).takeDamage 40).2 = false ∧
      ((Player.new 1000 1000).takeDamage 40).1.markedForDeletion = false ∧
      (((Player.new 1000 1000).takeDamage 40).1.takeDamage 40).1.health = 20 ∧
      (((Player.new 1000 1000).takeDamage 40).1.takeDamage 40).2 = false ∧
      (((Player.new 1000 1000).takeDamage 40).1.takeDamage 40).1.markedForDeletion = false ∧
      ((((Player.new 1000 1000).takeDamage 40).1.takeDamage 40).1.takeDamage 40).1.health
        = -20 ∧
      ((((Player.new 1000 1000).takeDamage 40).1.takeDamage 40).1.takeDamage 40).2 = true ∧
      ((((Player.new 1000 1000).takeDamage 40).1.takeDamage 40).1.takeDamage
        40).1.markedForDeletion = true) ∧
    ((Game.update refMath 0 threeHitsScene).map lifeSigns = some (60, false, false) ∧
      ((Game.update refMath 0 threeHitsScene).bind (Game.update refMath 0)).map lifeSigns
        = some (20, false, false) ∧
      (((Game.update refMath 0 threeHitsScene).bind (Game.update refMath 0)).bind
        (Game.update refMath 0)).map lifeSigns = some (-20, true, true)) ∧
    (∀ (m : JsMath) (g : Game) (bullet : Bullet),
      bullet.fromPlayer = false → g.player.markedForDeletion = false →
      Utils.circleCollision m bullet.x bullet.y bullet.radius
        g.player.x g.player.y g.player.radius = true →
      g.player.health - bullet.damage ≤ 0 →
      (Game.bulletVsPlayer m g bullet).1.gameOver = true ∧
      (Game.bulletVsPlayer m g bullet).1.player.health = g.player.health - bullet.damage) := by
  refine ⟨fun p d => ?_, by decide!, by decide!, fun m g bullet hb hg hc hd => ?_⟩
  · by_cases h : p.health - d ≤ 0
    · simp [Player.takeDamage, h]
    · simp [Player.takeDamage, h]
  · simp [Game.bulletVsPlayer, hb, hg, hc, Player.takeDamage, hd]

/-- C5 at a player with 20 health left and an enemy bullet of damage 40 that
overlaps it: the hit is fatal and sets `gameOver`. -/
theorem C5_player_takeDamage_witness :
    (({ Player.new 1000 1000 with health := 20 }).takeDamage 40).2 = true ∧
    (Game.bulletVsPlayer refMath
      { Game.fields 800 600 with player := { Player.new 1000 1000 with health := 20 } }
      (Bullet.new 981 1000 0 5 40 "#F14E54" false)).1.gameOver = true :=
  ⟨(C5_player_takeDamage.1 { Player.new 1000 1000 with health := 20 } 40).2.1.mpr
      (by decide!),
    (C5_player_takeDamage.2.2.2 refMath
      { Game.fields 800 600 with player := { Player.new 1000 1000 with health := 20 } }
      (Bullet.new 981 1000 0 5 40 "#F14E54" false) rfl rfl (by decide!) (by decide!)).1⟩

/-! ## World bounds (C8) -/

/-- The result of `Utils.clamp` lies between its bounds when they are ordered. -/
theorem clamp_mem (value lo hi : ℚ) (h : lo ≤ hi) :
    lo ≤ Utils.clamp value lo hi ∧ Utils.clamp value lo hi ≤ hi :=
  ⟨le_min (le_max_right _ _) h, min_le_right _ _⟩

/-- The cooldown and aiming parts of `Player.update` leave position and radius
alone. -/
theorem Player.update_eq_position (m : JsMath) (p : Player) (camera : Camera) :
    (p.update m camera).x = (p.updatePosition m).x ∧
    (p.update m camera).y = (p.updatePosition m).y ∧
    (p.update m camera).radius = p.radius := by
  simp only [Player.update, Player.updateSpecialCooldown, Player.updateShootingCooldown,
    Player.updateAngle, Player.updatePosition]
  split_ifs <;> simp

/-- The method `Enemy.moveTowardsTarget` leaves the radius alone. -/
theorem Enemy.moveTowardsTarget_radius (m : JsMath) (e : Enemy) :
    (e.moveTowardsTarget m).radius = e.radius := by
  unfold Enemy.moveTowardsTarget
  split
  · dsimp only
    split_ifs <;> rfl
  · rfl

/-- The behaviour choice of `Enemy.update` leaves the radius alone. -/
theorem Enemy.chooseBehaviour_radius (m : JsMath) (k : ℕ) (e : Enemy)
    (playerX playerY worldSize : ℚ) (bullets : List Bullet) :
    (e.chooseBehaviour m k playerX playerY worldSize bullets).1.radius = e.radius := by
  unfold Enemy.chooseBehaviour
  dsimp only
  split_ifs <;> simp [Enemy.chooseRandomTarget]

/-- C8: after `Player.update` (any movement flags, any `Math` functions) and
after `Enemy.update` with `worldSize = 2000` (any player position), `x` and `y`
both lie in `[radius, worldSize - radius]`, for every starting position and
every radius with `0 ≤ radius ≤ worldSize / 2`; the radius itself is
unchanged. -/
theorem C8_positions_stay_in_world (m : JsMath) (p : Player) (camera : Camera)
    (k : ℕ) (e : Enemy) (playerX playerY : ℚ) (bullets : List Bullet)
    (_hp0 : 0 ≤ p.radius) (hp : p.radius ≤ 2000 / 2)
    (_he0 : 0 ≤ e.radius) (he : e.radius ≤ 2000 / 2) :
    ((p.update m camera).radius = p.radius ∧
      p.radius ≤ (p.update m camera).x ∧ (p.update m camera).x ≤ 2000 - p.radius ∧
      p.radius ≤ (p.update m camera).y ∧ (p.update m camera).y ≤ 2000 - p.radius) ∧
    ((e.update m k playerX playerY 2000 bullets).1.radius = e.radius ∧
      e.radius ≤ (e.update m k playerX playerY 2000 bullets).1.x ∧
      (e.update m k playerX playerY 2000 bullets).1.x ≤ 2000 - e.radius ∧
      e.radius ≤ (e.update m k playerX playerY 2000 bullets).1.y ∧
      (e.update m k playerX playerY 2000 bullets).1.y ≤ 2000 - e.radius) := by
  have hpr : p.radius ≤ 2000 - p.radius := by linarith
  have her : e.radius ≤ 2000 - e.radius := by linarith
  constructor
  · obtain ⟨hx, hy, hr⟩ := Player.update_eq_position m p camera
    rw [hx, hy, hr]
    refine ⟨rfl, ?_, ?_, ?_, ?_⟩
    · exact (clamp_mem _ _ _ hpr).1
    · exact (clamp_mem _ _ _ hpr).2
    · exact (clamp_mem _ _ _ hpr).1
    · exact (clamp_mem _ _ _ hpr).2
  · have hr : ((e.chooseBehaviour m k playerX playerY 2000 bullets).1.moveTowardsTarget
        m).radius = e.radius := by
      rw [Enemy.moveTowardsTarget_radius, Enemy.chooseBehaviour_radius]
    simp only [Enemy.update, hr]
    refine ⟨trivial, ?_, ?_, ?_, ?_⟩
    · exact (clamp_mem _ _ _ her).1
    · exact (clamp_mem _ _ _ her).2
    · exact (clamp_mem _ _ _ her).1
    · exact (clamp_mem _ _ _ her).2

/-- C8 at a new player placed outside the bounds at `(5, 1995)` and moving up
and left, and at a new tier-3 enemy at `(1990, 5)` with the player at the
centre of the world. -/
theorem C8_positions_stay_in_world_witness :
    (Player.new 5 1995).radius ≤ 2000 / 2 ∧ (Enemy.new 1990 5 3).radius ≤ 2000 / 2 ∧
    (Player.new 5 1995).radius ≤
      (({ Player.new 5 1995 with movement := ⟨true, false, true, false⟩ }).update refMath
        ⟨0, 0⟩).x ∧
    ((Enemy.new 1990 5 3).update refMath 0 1000 1000 2000 []).1.x
      ≤ 2000 - (Enemy.new 1990 5 3).radius :=
  have h := C8_positions_stay_in_world refMath
    { Player.new 5 1995 with movement := ⟨true, false, true, false⟩ } ⟨0, 0⟩ 0
    (Enemy.new 1990 5 3) 1000 1000 [] (by decide!) (by decide!) (by decide!) (by decide!)
  ⟨by decide!, by decide!, h.1.2.1, h.2.2.2.1⟩

/-! ## Levelling (C11) -/

/-- C11: when `addScore(points)` makes `experience + points` reach the
threshold `T = experienceToNextLevel`, the level rises by 1, the experience
becomes `experience + points - T`, the threshold becomes `floor(1.5 * T)`,
`maxHealth` rises by 10, the health equals the new `maxHealth`, the radius and
`bulletDamage` rise by 1 (and the score by `points`); when
`experience + points < T` only score and experience change, each by `points`. -/
theorem C11_addScore_level_up (p : Player) (points : ℚ) :
    (p.experienceToNextLevel ≤ p.experience + points →
      p.addScore points =
        { p with
          score := p.score + points
          level := p.level + 1
          experience := p.experience + points - p.experienceToNextLevel
          experienceToNextLevel := ((⌊p.experienceToNextLevel * 1.5⌋ : ℤ) : ℚ)
          maxHealth := p.maxHealth + 10
          health := p.maxHealth + 10
          radius := p.radius + 1
          bulletDamage := p.bulletDamage + 1 }) ∧
    (p.experience + points < p.experienceToNextLevel →
      p.addScore points =
        { p with score := p.score + points, experience := p.experience + points }) := by
  refine ⟨fun h => ?_, fun h => ?_⟩
  · have hge : p.experience + points ≥ p.experienceToNextLevel := h
    simp [Player.addScore, hge, Player.levelUp]
  · have hlt : ¬ p.experience + points ≥ p.experienceToNextLevel := not_le.mpr h
    simp [Player.addScore, hlt]

/-- C11 at a new player given exactly its threshold of 100 points, and given 40
points. -/
theorem C11_addScore_level_up_witness :
    ((Player.new 1000 1000).addScore 100).level = 2 ∧
    ((Player.new 1000 1000).addScore 100).experience = 0 ∧
    ((Player.new 1000 1000).addScore 100).experienceToNextLevel = 150 ∧
    ((Player.new 1000 1000).addScore 100).health = 110 ∧
    ((Player.new 1000 1000).addScore 40).level = 1 ∧
    ((Player.new 1000 1000).addScore 40).experience = 40 :=
  have hup := (C11_addScore_level_up (Player.new 1000 1000) 100).1 (by decide!)
  have hstay := (C11_addScore_level_up (Player.new 1000 1000) 40).2 (by decide!)
  ⟨by rw [hup]; decide!, by rw [hup]; decide!, by rw [hup]; decide!, by rw [hup]; decide!,
    by rw [hstay]; decide!, by rw [hstay]; decide!⟩

/-! ## Tank classes (C12, C13, C14) -/

/-- C12 (as stated, fails): `setTankClass` has no guard.  A new player that has
chosen "twin" and is given "sniper" afterwards ends with the sniper class, rate
50, the sniper special, bullet speed 10.5 instead of 7 and damage 6 instead
of 4. -/
theorem C12_second_setTankClass_counterexample :
    ((Player.new 1000 1000).setTankClass "twin").hasChosenClass = true ∧
    ((Player.new 1000 1000).setTankClass "twin").tankClass = "twin" ∧
    ((Player.new 1000 1000).setTankClass "twin").shootingRate = 15 ∧
    ((Player.new 1000 1000).setTankClass "twin").bulletSpeed = 7 ∧
    ((Player.new 1000 1000).setTankClass "twin").bulletDamage = 4 ∧
    (((Player.new 1000 1000).setTankClass "twin").setTankClass "sniper").tankClass
      = "sniper" ∧
    (((Player.new 1000 1000).setTankClass "twin").setTankClass "sniper").specialAbility
      = some "Piercing Shot" ∧
    (((Player.new 1000 1000).setTankClass "twin").setTankClass "sniper").shootingRate = 50 ∧
    (((Player.new 1000 1000).setTankClass "twin").setTankClass "sniper").bulletSpeed
      = 10.5 ∧
    (((Player.new 1000 1000).setTankClass "twin").setTankClass "sniper").bulletDamage = 6 := by
  decide!

/-- C12 (amended): the class choice is one-time through the menu, not through
`setTankClass`.  `setTankClass(name)` always records the name and sets
`hasChosenClass`; `showUpgradeMenu` decides for the class-selection menu (the
only caller of `setTankClass`) only while `hasChosenClass` is false, so for a
player that has chosen it generates the regular upgrades instead. -/
theorem C12_class_choice_gated_by_menu :
    (∀ (p : Player) (className : String),
      (p.setTankClass className).hasChosenClass = true ∧
      (p.setTankClass className).tankClass = className) ∧
    (∀ (g : Game) (className : String),
      Game.offersClassSelection { g with player := g.player.setTankClass className }
        = false) ∧
    (∀ (m : JsMath) (g : Game), g.player.hasChosenClass = true →
      Game.offersClassSelection g = false ∧
      Game.showUpgradeMenu m g
        = Game.generateUpgrades m { g with showingUpgradeMenu := true, paused := true }) ∧
    (∀ (m : JsMath) (g : Game), Game.offersClassSelection g = true →
      g.player.hasChosenClass = false ∧ 10 ≤ g.player.level ∧
      Game.showUpgradeMenu m g = { g with showingUpgradeMenu := true, paused := true }) := by
  have hset : ∀ (p : Player) (className : String),
      (p.setTankClass className).hasChosenClass = true ∧
      (p.setTankClass className).tankClass = className := by
    intro p className
    simp only [Player.setTankClass, Player.adjustStats]
    split_ifs <;> exact ⟨rfl, rfl⟩
  refine ⟨hset, fun g className => ?_, fun m g h => ?_, fun m g h => ?_⟩
  · simp [Game.offersClassSelection, (hset g.player className).1]
  · constructor
    · simp [Game.offersClassSelection, h]
    · simp [Game.showUpgradeMenu, Game.offersClassSelection, h]
  · have h1 : g.player.hasChosenClass = false ∧ 10 ≤ g.player.level := by
      simpa [Game.offersClassSelection] using h
    refine ⟨h1.1, h1.2, ?_⟩
    simp [Game.showUpgradeMenu, Game.offersClassSelection, h1.1, h1.2]

/-- C12 (amended) at a game whose player has reached level 10 without a class
(the menu offers the class selection) and at the same game after the player
chose "twin" (it does not). -/
theorem C12_class_choice_gated_by_menu_witness :
    Game.offersClassSelection
      { Game.fields 800 600 with player := { Player.new 1000 1000 with level := 10 } }
      = true ∧
    Game.offersClassSelection
      { Game.fields 800 600 with
        player := ({ Player.new 1000 1000 with level := 10 }).setTankClass "twin" }
      = false :=
  ⟨by decide!,
    (C12_class_choice_gated_by_menu.2.2.1 refMath
      { Game.fields 800 600 with
        player := ({ Player.new 1000 1000 with level := 10 }).setTankClass "twin" }
      (by decide!)).1⟩

/-- C13 (as stated, fails): the bullet of a destroyer's shot has speed 3.43 and
damage 37.5, not `0.7 * 7 = 4.9` and `2.5 * 5 = 12.5`: `shootDestroyer` applies
its own factors 0.7 and 3 to the stats that `setTankClass` already scaled. -/
theorem C13_destroyer_shot_counterexample :
    ((({ (Player.new 1000 1000).setTankClass "destroyer" with shooting := true }).shoot
        refMath 0 []).2.1.map (fun b : Bullet => (b.speed, b.damage)) = [(3.43, 37.5)]) ∧
    (3.43 : ℚ) ≠ 0.7 * 7 ∧ (37.5 : ℚ) ≠ 2.5 * 5 := by
  decide!

/-- C13 (amended): after `setTankClass("destroyer")` on a new player the
shooting rate is 60, and one ready shot (shooting, cooldown 0) appends exactly
one player-owned bullet of radius 10 whose speed is `0.7 * (0.7 * 7) = 3.43`
and whose damage is `3 * (2.5 * 5) = 37.5`, and sets the cooldown to 60. -/
theorem C13_destroyer_shot (m : JsMath) (k : ℕ) (x y : ℚ) (bullets : List Bullet) :
    ((Player.new x y).setTankClass "destroyer").shootingRate = 60 ∧
    (Player.new x y).shootingCooldown = 0 ∧
    ∃ b : Bullet,
      (({ (Player.new x y).setTankClass "destroyer" with shooting := true }).shoot
        m k bullets).2.1 = bullets ++ [b] ∧
      b.fromPlayer = true ∧ b.radius = 10 ∧
      b.speed = 0.7 * (0.7 * 7) ∧ b.speed = 3.43 ∧
      b.damage = 3 * (2.5 * 5) ∧ b.damage = 37.5 ∧
      (({ (Player.new x y).setTankClass "destroyer" with shooting := true }).shoot
        m k bullets).1.shootingCooldown = 60 := by
  refine ⟨by simp [Player.setTankClass, Player.adjustStats, Player.new],
    by simp [Player.new], ?_⟩
  refine ⟨{ Bullet.new (x + m.cos 0 * (15 + 15)) (y + m.sin 0 * (15 + 15)) 0 (7 * 0.7 * 0.7)
    (5 * 2.5 * 3) "#00B2E1" true with radius := 10 }, ?_, ?_⟩
  · simp [Player.shoot, Player.setTankClass, Player.adjustStats, Player.new,
      Player.shootDestroyer]
  · simp [Player.shoot, Player.setTankClass, Player.adjustStats, Player.new, Bullet.new]
    norm_num

/-- C14: after `setTankClass("sniper")` on a player with bullet damage `D` and
bullet speed `S`, an immediate `shootSniper` appends exactly one bullet, with
damage `D * 1.5 * 2` and speed `S * 1.5 * 1.5`; for a new player these are 15
and 15.75, also when the shot goes through `shoot`. -/
theorem C14_sniper_shot (m : JsMath) (p : Player) (bullets : List Bullet) :
    (∃ b : Bullet,
      (p.setTankClass "sniper").shootSniper m bullets = bullets ++ [b] ∧
      b.damage = p.bulletDamage * 1.5 * 2 ∧ b.speed = p.bulletSpeed * 1.5 * 1.5 ∧
      b.fromPlayer = true) ∧
    (((Player.new 1000 1000).setTankClass "sniper").shootSniper refMath []).map
        (fun b : Bullet => (b.damage, b.speed)) = [(15, 15.75)] ∧
    (({ (Player.new 1000 1000).setTankClass "sniper" with shooting := true }).shoot
        refMath 0 []).2.1.map (fun b : Bullet => (b.damage, b.speed)) = [(15, 15.75)] := by
  refine ⟨⟨_, rfl, ?_⟩, by decide!, by decide!⟩
  simp [Player.setTankClass, Player.adjustStats, Bullet.new]

/-! ## Special abilities (C15) -/

/-- C15: `activateSpecial` has an effect only when the special cooldown has run
out and a class has been chosen.  With `specialCooldown > 0`, or with no class
chosen (`specialAbility` null), it leaves the player, the bullet list and the
pending timers unchanged; otherwise, for each of the four classes, it sets
`specialCooldown` to `specialMaxCooldown`. -/
theorem C15_activateSpecial_gate (m : JsMath) (p : Player) (bullets : List Bullet)
    (timers : Player.Timers) :
    (0 < p.specialCooldown → p.activateSpecial m bullets timers = (p, bullets, timers)) ∧
    (p.specialAbility = none → p.activateSpecial m bullets timers = (p, bullets, timers)) ∧
    (p.specialCooldown ≤ 0 → p.hasSpecial = true →
      (p.tankClass = "twin" ∨ p.tankClass = "sniper" ∨ p.tankClass = "machine" ∨
        p.tankClass = "destroyer") →
      (p.activateSpecial m bullets timers).1.specialCooldown = p.specialMaxCooldown ∧
      (p.activateSpecial m bullets timers).1.specialMaxCooldown = p.specialMaxCooldown) := by
  refine ⟨fun h => ?_, fun h => ?_, fun hc hs hclass => ?_⟩
  · have hn : ¬ p.specialCooldown ≤ 0 := not_le.mpr h
    simp [Player.activateSpecial, hn]
  · simp [Player.activateSpecial, Player.hasSpecial, h]
  · rcases hclass with h | h | h | h <;>
      simp [Player.activateSpecial, Player.dispatchSpecial, Player.specialMachineBarrage,
        hc, hs, h]

/-- C15 at a new player without a class (nothing happens) and at a new player
that chose "machine" (the cooldown is set to 300 and the barrage starts). -/
theorem C15_activateSpecial_gate_witness :
    (Player.new 1000 1000).activateSpecial refMath [] [] = (Player.new 1000 1000, [], []) ∧
    (((Player.new 1000 1000).setTankClass "machine").activateSpecial refMath [] []
      ).1.specialCooldown = ((Player.new 1000 1000).setTankClass "machine").specialMaxCooldown :=
  ⟨(C15_activateSpecial_gate refMath (Player.new 1000 1000) [] []).2.1 rfl,
    ((C15_activateSpecial_gate refMath ((Player.new 1000 1000).setTankClass "machine") []
      []).2.2 (by decide!) (by decide!) (by decide!)).1⟩

/-! ## Geometry (C16, C17) -/

/-- C16 (as stated, fails): the circles of radius `1.4142135623730951` (the
double `Math.sqrt(2)`) and `0` centred at `(0, 0)` and `(1, 1)`.  The computed
distance is `Math.sqrt(2)`, equal to `r1 + r2`, so `circleCollision` is false;
the Euclidean distance, the real square root of 2, is strictly less than
`r1 + r2`. -/
theorem C16_rounded_distance_counterexample :
    Utils.distance doubleMath 0 0 1 1 = 6369051672525773 / 4503599627370496 ∧
    Utils.circleCollision doubleMath 0 0 (6369051672525773 / 4503599627370496) 1 1 0
      = false ∧
    Real.sqrt ((((1 : ℚ) : ℝ) - ((0 : ℚ) : ℝ)) ^ 2 + (((1 : ℚ) : ℝ) - ((0 : ℚ) : ℝ)) ^ 2)
      < ((6369051672525773 / 4503599627370496 : ℚ) : ℝ) + ((0 : ℚ) : ℝ) := by
  refine ⟨by decide!, by decide!, ?_⟩
  rw [Real.sqrt_lt' (by norm_num)]
  norm_num

/-- C16 (amended): `Utils.circleCollision` is true exactly when the computed
distance `Utils.distance` is strictly less than the computed sum `r1 + r2`,
whatever the rounding of the arithmetic; it is symmetric under swapping the two
circles (rounding being symmetric under negation) and false when the computed
distance equals the computed `r1 + r2`.  With exact arithmetic this is the
model `Utils.circleCollision`, and wherever the square root is exact too the
computed distance is the Euclidean one and the result is the Euclidean
comparison. -/
theorem C16_circleCollision_strict (fl pow2 : ℚ → ℚ) (m : JsMath)
    (x1 y1 r1 x2 y2 r2 : ℚ)
    (hfl : ∀ a : ℚ, fl (-a) = -fl a) (hpow : ∀ a : ℚ, pow2 (-a) = pow2 a) :
    (Utils.circleCollisionRounded fl pow2 m x1 y1 r1 x2 y2 r2 = true ↔
      Utils.distanceRounded fl pow2 m x1 y1 x2 y2 < fl (r1 + r2)) ∧
    Utils.circleCollisionRounded fl pow2 m x2 y2 r2 x1 y1 r1
      = Utils.circleCollisionRounded fl pow2 m x1 y1 r1 x2 y2 r2 ∧
    (Utils.distanceRounded fl pow2 m x1 y1 x2 y2 = fl (r1 + r2) →
      Utils.circleCollisionRounded fl pow2 m x1 y1 r1 x2 y2 r2 = false) ∧
    Utils.circleCollision m x1 y1 r1 x2 y2 r2
      = Utils.circleCollisionRounded id (fun a => a ^ 2) m x1 y1 r1 x2 y2 r2 ∧
    (Utils.circleCollision m x1 y1 r1 x2 y2 r2 = true ↔
      Utils.distance m x1 y1 x2 y2 < r1 + r2) ∧
    Utils.circleCollision m x2 y2 r2 x1 y1 r1 = Utils.circleCollision m x1 y1 r1 x2 y2 r2 ∧
    (SqrtExactAt m ((x2 - x1) ^ 2 + (y2 - y1) ^ 2) →
      ((Utils.distance m x1 y1 x2 y2 : ℚ) : ℝ)
        = Real.sqrt (((x2 : ℝ) - x1) ^ 2 + ((y2 : ℝ) - y1) ^ 2) ∧
      (Utils.circleCollision m x1 y1 r1 x2 y2 r2 = true ↔
        Real.sqrt (((x2 : ℝ) - x1) ^ 2 + ((y2 : ℝ) - y1) ^ 2) < (r1 : ℝ) + r2)) := by
  have hsym : Utils.distanceRounded fl pow2 m x2 y2 x1 y1
      = Utils.distanceRounded fl pow2 m x1 y1 x2 y2 := by
    unfold Utils.distanceRounded
    have hx : fl (x1 - x2) = -fl (x2 - x1) := by rw [← hfl]; congr 1; ring
    have hy : fl (y1 - y2) = -fl (y2 - y1) := by rw [← hfl]; congr 1; ring
    rw [hx, hy, hpow, hpow]
  have hexactsym : (x1 - x2) ^ 2 + (y1 - y2) ^ 2 = (x2 - x1) ^ 2 + (y2 - y1) ^ 2 := by ring
  refine ⟨by simp [Utils.circleCollisionRounded], ?_, fun h => ?_, ?_,
    by simp [Utils.circleCollision], ?_, fun h => ?_⟩
  · simp only [Utils.circleCollisionRounded, hsym, add_comm r2 r1]
  · simp [Utils.circleCollisionRounded, h]
  · simp [Utils.circleCollision, Utils.circleCollisionRounded, Utils.distance,
      Utils.distanceRounded]
  · simp only [Utils.circleCollision, Utils.distance, hexactsym, add_comm r2 r1]
  · obtain ⟨h0, hsq⟩ := h
    have h0r : (0 : ℝ) ≤ ((m.sqrt ((x2 - x1) ^ 2 + (y2 - y1) ^ 2) : ℚ) : ℝ) := by
      exact_mod_cast h0
    have hsqr : ((m.sqrt ((x2 - x1) ^ 2 + (y2 - y1) ^ 2) : ℚ) : ℝ)
        * ((m.sqrt ((x2 - x1) ^ 2 + (y2 - y1) ^ 2) : ℚ) : ℝ)
        = ((x2 : ℝ) - x1) ^ 2 + ((y2 : ℝ) - y1) ^ 2 := by
      exact_mod_cast hsq
    have hdist : ((Utils.distance m x1 y1 x2 y2 : ℚ) : ℝ)
        = Real.sqrt (((x2 : ℝ) - x1) ^ 2 + ((y2 : ℝ) - y1) ^ 2) := by
      unfold Utils.distance
      rw [← hsqr, Real.sqrt_mul_self h0r]
    refine ⟨hdist, ?_⟩
    rw [← hdist]
    simp only [Utils.circleCollision, decide_eq_true_eq]
    constructor
    · intro hlt
      exact_mod_cast hlt
    · intro hlt
      exact_mod_cast hlt

/-- C16 (amended) at the circles of radius 2 and 3 centred at `(0, 0)` and
`(3, 4)`, with exact arithmetic: their distance is exactly 5, the Euclidean
distance, they are tangent and do not collide. -/
theorem C16_circleCollision_strict_witness :
    ((Utils.distance refMath 0 0 3 4 : ℚ) : ℝ)
      = Real.sqrt ((((3 : ℚ) : ℝ) - ((0 : ℚ) : ℝ)) ^ 2
          + (((4 : ℚ) : ℝ) - ((0 : ℚ) : ℝ)) ^ 2) ∧
    Utils.circleCollisionRounded id (fun a => a ^ 2) refMath 0 0 2 3 4 3 = false :=
  have h := C16_circleCollision_strict id (fun a => a ^ 2) refMath 0 0 2 3 4 3
    (fun _ => rfl) (fun a => by simp)
  ⟨(h.2.2.2.2.2.2 (by unfold SqrtExactAt; decide!)).1, h.2.2.1 (by decide!)⟩

/-- Scaling a vector with a nonzero first component by
`speed / sqrt(dx * dx + dy * dy)` gives it the length `speed`. -/
theorem normalised_length (speed dx dy : ℝ) (hs : 0 ≤ speed) (hx : dx ≠ 0) :
    Real.sqrt ((dx * (speed / Real.sqrt (dx * dx + dy * dy))) ^ 2
      + (dy * (speed / Real.sqrt (dx * dx + dy * dy))) ^ 2) = speed := by
  have hpos : 0 < dx * dx + dy * dy := by
    have := mul_self_pos.mpr hx
    have := mul_self_nonneg dy
    linarith
  have hr : 0 < Real.sqrt (dx * dx + dy * dy) := Real.sqrt_pos.mpr hpos
  have hrr : Real.sqrt (dx * dx + dy * dy) * Real.sqrt (dx * dx + dy * dy)
      = dx * dx + dy * dy := Real.mul_self_sqrt hpos.le
  have key : (dx * (speed / Real.sqrt (dx * dx + dy * dy))) ^ 2
      + (dy * (speed / Real.sqrt (dx * dx + dy * dy))) ^ 2 = speed ^ 2 := by
    field_simp
    nlinarith [hrr]
  rw [key, Real.sqrt_sq hs]

/-- No rational number has the square 2. -/
theorem rat_mul_self_ne_two (t : ℚ) : t * t ≠ 2 := by
  intro h
  have habs : (|t| * |t| : ℚ) = 2 := by rw [abs_mul_abs_self]; exact h
  have hr : ((|t| : ℚ) : ℝ) * ((|t| : ℚ) : ℝ) = 2 := by exact_mod_cast habs
  have hnn : (0 : ℝ) ≤ ((|t| : ℚ) : ℝ) := by exact_mod_cast abs_nonneg t
  have hsqrt : Real.sqrt 2 = ((|t| : ℚ) : ℝ) := by
    rw [← hr, Real.sqrt_mul_self hnn]
  exact irrational_sqrt_two.ne_rat _ hsqrt

/-- A vector with both components of magnitude `s * (s / r)`, for rational
`s ≠ 0` and any rational `r`, does not have the squared length `s ^ 2`. -/
theorem diagonal_step_ne (s r : ℚ) (hs : s ≠ 0) :
    (s * (s / r)) ^ 2 + (s * (s / r)) ^ 2 ≠ s ^ 2 := by
  intro h
  by_cases hr : r = 0
  · rw [hr] at h
    simp at h
    exact hs ((pow_eq_zero_iff two_ne_zero).mp h.symm)
  · have h2 : (r / s) * (r / s) = 2 := by
      field_simp
      field_simp at h
      nlinarith [h, mul_self_pos.mpr hs, mul_self_pos.mpr hr]
    exact rat_mul_self_ne_two _ h2

/-- The diagonal displacement over the rationals: both components have the
magnitude `s * (s / sqrt (s * s + s * s))`. -/
theorem Player.displacementOver_diagonal (sqrt : ℚ → ℚ) (s : ℚ) (mv : Movement)
    (hv : mv.up ≠ mv.down) (hh : mv.left ≠ mv.right) :
    (Player.displacementOver sqrt s mv).1 ^ 2 = (s * (s / sqrt (s * s + s * s))) ^ 2 ∧
    (Player.displacementOver sqrt s mv).2 ^ 2 = (s * (s / sqrt (s * s + s * s))) ^ 2 := by
  rcases mv with ⟨u, d, l, r⟩
  by_cases hs : s = 0
  · subst hs
    cases u <;> cases d <;> cases l <;> cases r <;> simp [Player.displacementOver] at hv hh ⊢
  · cases u <;> cases d <;> cases l <;> cases r <;>
      simp [Player.displacementOver, hs] at hv hh ⊢

/-- The displacement over the rationals with exactly one axis active: the
squared length is `s ^ 2`. -/
theorem Player.displacementOver_axial (sqrt : ℚ → ℚ) (s : ℚ) (mv : Movement)
    (h : (mv.up = mv.down ∧ mv.left ≠ mv.right) ∨ (mv.up ≠ mv.down ∧ mv.left = mv.right)) :
    (Player.displacementOver sqrt s mv).1 ^ 2 + (Player.displacementOver sqrt s mv).2 ^ 2
      = s ^ 2 := by
  rcases mv with ⟨u, d, l, r⟩
  cases u <;> cases d <;> cases l <;> cases r <;> simp [Player.displacementOver] at h ⊢

/-- C17 (as stated, fails): a new player (speed 3) with the flags up and right
set.  With the double-precision `Math.sqrt(18)` the displacement before clamping
does not have the squared length `3 ^ 2`, and no `Math` object with
floating-point (rational) values gives it that length. -/
theorem C17_diagonal_length_counterexample :
    (Player.new 1000 1000).speed = 3 ∧
    (({ Player.new 1000 1000 with movement := ⟨true, false, false, true⟩ }
        ).displacement doubleMath).1 ^ 2
      + (({ Player.new 1000 1000 with movement := ⟨true, false, false, true⟩ }
        ).displacement doubleMath).2 ^ 2 ≠ 3 ^ 2 ∧
    (∀ m : JsMath,
      (({ Player.new 1000 1000 with movement := ⟨true, false, false, true⟩ }
          ).displacement m).1 ^ 2
        + (({ Player.new 1000 1000 with movement := ⟨true, false, false, true⟩ }
          ).displacement m).2 ^ 2 ≠ 3 ^ 2) := by
  have hall : ∀ m : JsMath,
      (({ Player.new 1000 1000 with movement := ⟨true, false, false, true⟩ }
          ).displacement m).1 ^ 2
        + (({ Player.new 1000 1000 with movement := ⟨true, false, false, true⟩ }
          ).displacement m).2 ^ 2 ≠ 3 ^ 2 := by
    intro m
    obtain ⟨h1, h2⟩ := Player.displacementOver_diagonal m.sqrt 3 ⟨true, false, false, true⟩
      (by decide) (by decide)
    show (Player.displacementOver m.sqrt 3 ⟨true, false, false, true⟩).1 ^ 2
      + (Player.displacementOver m.sqrt 3 ⟨true, false, false, true⟩).2 ^ 2 ≠ 3 ^ 2
    rw [h1, h2]
    exact diagonal_step_ne 3 _ (by norm_num)
  exact ⟨rfl, hall doubleMath, hall⟩

/-- C17 (amended): the displacement `(dx, dy)` of `Player.update` before
clamping.  Equal (in particular opposite, both set) flags on an axis give zero
on that axis.  With exactly one axis active the squared length is
`speed ^ 2`.  On a diagonal (one vertical and one horizontal flag effectively
active) both components have the magnitude
`speed * (speed / Math.sqrt(speed * speed + speed * speed))`: with real numbers
and the real square root the length is exactly `speed`, as for a single
direction, while with rational (floating-point) values of the square root it is
never exactly `speed` for a nonzero speed. -/
theorem C17_displacement_length (speed : ℝ) (movement : Movement) (hs : 0 ≤ speed) :
    ((movement.up ≠ movement.down ∨ movement.left ≠ movement.right) →
      Real.sqrt ((Player.displacementOver Real.sqrt speed movement).1 ^ 2
        + (Player.displacementOver Real.sqrt speed movement).2 ^ 2) = speed) ∧
    (movement.left = movement.right →
      (Player.displacementOver Real.sqrt speed movement).1 = 0) ∧
    (movement.up = movement.down →
      (Player.displacementOver Real.sqrt speed movement).2 = 0) ∧
    (∀ (m : JsMath) (p : Player),
      p.displacement m = Player.displacementOver m.sqrt p.speed p.movement ∧
      (p.movement.left = p.movement.right → (p.displacement m).1 = 0) ∧
      (p.movement.up = p.movement.down → (p.displacement m).2 = 0) ∧
      (((p.movement.up = p.movement.down ∧ p.movement.left ≠ p.movement.right) ∨
          (p.movement.up ≠ p.movement.down ∧ p.movement.left = p.movement.right)) →
        (p.displacement m).1 ^ 2 + (p.displacement m).2 ^ 2 = p.speed ^ 2) ∧
      (p.movement.up ≠ p.movement.down → p.movement.left ≠ p.movement.right →
        (p.displacement m).1 ^ 2
          = (p.speed * (p.speed / m.sqrt (p.speed * p.speed + p.speed * p.speed))) ^ 2 ∧
        (p.displacement m).2 ^ 2
          = (p.speed * (p.speed / m.sqrt (p.speed * p.speed + p.speed * p.speed))) ^ 2 ∧
        (p.speed ≠ 0 →
          (p.displacement m).1 ^ 2 + (p.displacement m).2 ^ 2 ≠ p.speed ^ 2))) := by
  refine ⟨?_, ?_, ?_, fun m p => ⟨rfl, ?_, ?_, ?_, ?_⟩⟩
  · by_cases hs0 : speed = 0
    · subst hs0
      rcases movement with ⟨u, d, l, r⟩
      cases u <;> cases d <;> cases l <;> cases r <;> simp [Player.displacementOver]
    · rcases movement with ⟨u, d, l, r⟩
      cases u <;> cases d <;> cases l <;> cases r <;>
        simp [Player.displacementOver, hs0, hs, Real.sqrt_sq] <;>
        exact normalised_length speed speed speed hs hs0
  · rcases movement with ⟨u, d, l, r⟩
    cases u <;> cases d <;> cases l <;> cases r <;> simp [Player.displacementOver]
  · rcases movement with ⟨u, d, l, r⟩
    cases u <;> cases d <;> cases l <;> cases r <;> simp [Player.displacementOver]
  · rcases p with ⟨_, _, _, _, _, _, speed, _, _, _, _, _, _, _, _, ⟨u, d, l, r⟩⟩
    cases u <;> cases d <;> cases l <;> cases r <;>
      simp [Player.displacement, Player.displacementOver]
  · rcases p with ⟨_, _, _, _, _, _, speed, _, _, _, _, _, _, _, _, ⟨u, d, l, r⟩⟩
    cases u <;> cases d <;> cases l <;> cases r <;>
      simp [Player.displacement, Player.displacementOver]
  · intro h
    exact Player.displacementOver_axial m.sqrt p.speed p.movement h
  · intro hv hh
    obtain ⟨h1, h2⟩ := Player.displacementOver_diagonal m.sqrt p.speed p.movement hv hh
    refine ⟨h1, h2, fun hne => ?_⟩
    show (Player.displacementOver m.sqrt p.speed p.movement).1 ^ 2
      + (Player.displacementOver m.sqrt p.speed p.movement).2 ^ 2 ≠ p.speed ^ 2
    rw [h1, h2]
    exact diagonal_step_ne p.speed _ hne

/-- C17 (amended) at speed 3 with the flags up and right set: with the real
square root the diagonal displacement has length 3. -/
theorem C17_displacement_length_witness :
    (0 : ℝ) ≤ 3 ∧
    Real.sqrt ((Player.displacementOver Real.sqrt (3 : ℝ) ⟨true, false, false, true⟩).1 ^ 2
      + (Player.displacementOver Real.sqrt (3 : ℝ) ⟨true, false, false, true⟩).2 ^ 2) = 3 :=
  ⟨by norm_num,
    (C17_displacement_length 3 ⟨true, false, false, true⟩ (by norm_num)).1
      (Or.inl (by decide))⟩

/-! ## Game flow (C18, C19, C20) -/

/-- C18: while any of `paused`, `gameOver` and `showingUpgradeMenu` is true,
`Game.update` returns at once and leaves the whole game (player, shapes,
bullets, enemies, camera, `currentLevel`, `upgradePoints` and all the rest) as
it was. -/
theorem C18_update_gated (m : JsMath) (fuel : ℕ) (g : Game)
    (h : g.paused = true ∨ g.gameOver = true ∨ g.showingUpgradeMenu = true) :
    Game.update m fuel g = some g := by
  rcases h with h | h | h <;> simp [Game.update, h]

/-- C18 at a new game that is paused. -/
theorem C18_update_gated_witness :
    Game.update refMath 0 { Game.fields 800 600 with paused := true }
      = some { Game.fields 800 600 with paused := true } :=
  C18_update_gated refMath 0 { Game.fields 800 600 with paused := true } (Or.inl rfl)

/-- The method `generateUpgrades` changes only `availableUpgrades` and the count
of random calls. -/
theorem Game.generateUpgrades_fields (m : JsMath) (g : Game) :
    (Game.generateUpgrades m g).currentLevel = g.currentLevel ∧
    (Game.generateUpgrades m g).showingUpgradeMenu = g.showingUpgradeMenu ∧
    (Game.generateUpgrades m g).paused = g.paused :=
  ⟨rfl, rfl, rfl⟩

/-- The method `Game.levelUp` raises `currentLevel` by one and opens the
upgrade menu. -/
theorem Game.levelUp_fields (m : JsMath) (g : Game) :
    (Game.levelUp m g).currentLevel = g.currentLevel + 1 ∧
    (Game.levelUp m g).showingUpgradeMenu = true ∧
    (Game.levelUp m g).paused = true := by
  unfold Game.levelUp Game.showUpgradeMenu
  dsimp only
  split
  · exact ⟨rfl, rfl, rfl⟩
  · exact ⟨rfl, rfl, rfl⟩

/-- C19: with `maxLevel = 5` and the thresholds `(0, 1000, 3000, 7000, 15000)`,
`checkLevelProgress` at a level `L < 5` raises `currentLevel` by exactly one and
sets `showingUpgradeMenu` and `paused` when `player.score ≥ scoreThresholds[L]`,
and changes nothing otherwise; at `L ≥ 5` it changes nothing; so a level within
`1..5` stays within `1..5`. -/
theorem C19_checkLevelProgress (m : JsMath) (g : Game) (hmax : g.maxLevel = 5)
    (hthr : g.scoreThresholds = [0, 1000, 3000, 7000, 15000]) :
    (g.currentLevel < 5 →
      (g.scoreThresholds.getD g.currentLevel 0 ≤ g.player.score →
        (Game.checkLevelProgress m g).currentLevel = g.currentLevel + 1 ∧
        (Game.checkLevelProgress m g).showingUpgradeMenu = true ∧
        (Game.checkLevelProgress m g).paused = true) ∧
      (g.player.score < g.scoreThresholds.getD g.currentLevel 0 →
        Game.checkLevelProgress m g = g)) ∧
    (5 ≤ g.currentLevel → Game.checkLevelProgress m g = g) ∧
    (1 ≤ g.currentLevel ∧ g.currentLevel ≤ 5 →
      1 ≤ (Game.checkLevelProgress m g).currentLevel ∧
      (Game.checkLevelProgress m g).currentLevel ≤ 5) := by
  have hlow : g.currentLevel < 5 →
      (g.scoreThresholds.getD g.currentLevel 0 ≤ g.player.score →
        Game.checkLevelProgress m g = Game.levelUp m g) ∧
      (g.player.score < g.scoreThresholds.getD g.currentLevel 0 →
        Game.checkLevelProgress m g = g) := by
    intro hL
    have hcases : g.currentLevel = 0 ∨ g.currentLevel = 1 ∨ g.currentLevel = 2 ∨
        g.currentLevel = 3 ∨ g.currentLevel = 4 := by omega
    rcases hcases with h | h | h | h | h <;>
      (constructor
       · intro hs
         simp [hthr, h] at hs
         simp [Game.checkLevelProgress, hthr, hmax, h, hs]
       · intro hs
         simp [hthr, h] at hs
         simp [Game.checkLevelProgress, hthr, hmax, h, hs])
  have hhigh : 5 ≤ g.currentLevel → Game.checkLevelProgress m g = g := by
    intro hL
    have hnot : ¬ g.currentLevel < 5 := by omega
    unfold Game.checkLevelProgress
    split
    · simp [hmax, hnot]
    · rfl
  refine ⟨fun hL => ⟨fun hs => ?_, (hlow hL).2⟩, hhigh, fun hL => ?_⟩
  · rw [(hlow hL).1 hs]
    exact Game.levelUp_fields m g
  · by_cases h5 : g.currentLevel < 5
    · by_cases hs : g.scoreThresholds.getD g.currentLevel 0 ≤ g.player.score
      · rw [(hlow h5).1 hs, (Game.levelUp_fields m g).1]
        omega
      · rw [(hlow h5).2 (not_le.mp hs)]
        exact hL
    · rw [hhigh (by omega)]
      exact hL

/-- C19 at a new game (level 1) whose player has score 1000: the level becomes
2 and the menu opens. -/
theorem C19_checkLevelProgress_witness :
    (Game.checkLevelProgress refMath
      { Game.fields 800 600 with player := { Player.new 1000 1000 with score := 1000 } }
      ).currentLevel = 1 + 1 ∧
    (Game.checkLevelProgress refMath
      { Game.fields 800 600 with player := { Player.new 1000 1000 with score := 1000 } }
      ).showingUpgradeMenu = true :=
  have h := ((C19_checkLevelProgress refMath
    { Game.fields 800 600 with player := { Player.new 1000 1000 with score := 1000 } }
    rfl rfl).1 (by decide!)).1 (by decide!)
  ⟨h.1, h.2.1⟩

/-- With every `Math.random()` value in `[0, 1)`, the loop of
`generateUpgrades` pushes only entries of the pool, never `undefined`. -/
theorem Game.drawUpgrades_defined (m : JsMath)
    (hr : ∀ k, 0 ≤ m.random k ∧ m.random k < 1) :
    ∀ (fuel k : ℕ) (available : List (Option Upgrade)) (poolCopy : List Upgrade),
      (∀ entry ∈ available, entry ≠ none) →
      ∀ entry ∈ (Game.drawUpgrades m fuel k available poolCopy).1, entry ≠ none := by
  intro fuel
  induction fuel with
  | zero => intro k available poolCopy h; simpa [Game.drawUpgrades] using h
  | succ fuel ih =>
    intro k available poolCopy h
    unfold Game.drawUpgrades
    split
    · rename_i hc
      have hlen : (0 : ℚ) < poolCopy.length := by exact_mod_cast hc.2
      have hfloor : ⌊m.random k * poolCopy.length⌋ < (poolCopy.length : ℤ) := by
        rw [Int.floor_lt]
        have := (hr k).2
        push_cast
        nlinarith
      have hnonneg : 0 ≤ ⌊m.random k * poolCopy.length⌋ :=
        Int.floor_nonneg.mpr (mul_nonneg (hr k).1 hlen.le)
      have hlt : (⌊m.random k * poolCopy.length⌋ : ℤ).toNat < poolCopy.length := by omega
      apply ih
      intro entry hentry
      rcases List.mem_append.mp hentry with hmem | hmem
      · exact h entry hmem
      · rw [List.mem_singleton] at hmem
        rw [hmem, List.get?_eq_get hlt]
        simp
    · exact h

/-- C20: `applyUpgrade(index)` with `upgradePoints > 0` and
`0 ≤ index < availableUpgrades.length` applies exactly the mutation of the
upgrade at that index to the player and lowers `upgradePoints` by exactly one;
with no upgrade points or an index out of range it changes nothing and does not
fail; so `upgradePoints` never becomes negative.  The entries offered by
`generateUpgrades` are all upgrades of the pool when `Math.random()` stays in
`[0, 1)`. -/
theorem C20_applyUpgrade (g : Game) (index : ℤ) :
    (∀ upgrade : Upgrade, 0 < g.upgradePoints → 0 ≤ index →
      index < g.availableUpgrades.length →
      g.availableUpgrades.get? index.toNat = some (some upgrade) →
      g.applyUpgrade index
        = some { g with player := upgrade.apply g.player
                        upgradePoints := g.upgradePoints - 1 }) ∧
    (g.upgradePoints ≤ 0 ∨ index < 0 ∨ (g.availableUpgrades.length : ℤ) ≤ index →
      g.applyUpgrade index = some g) ∧
    (∀ g1 : Game, 0 ≤ g.upgradePoints → g.applyUpgrade index = some g1 →
      0 ≤ g1.upgradePoints) ∧
    (∀ m : JsMath, (∀ k, 0 ≤ m.random k ∧ m.random k < 1) →
      ∀ entry ∈ (Game.generateUpgrades m g).availableUpgrades, entry ≠ none) := by
  refine ⟨fun upgrade hp h0 hlen hget => ?_, fun h => ?_, fun g1 hp hres => ?_,
    fun m hr => Game.drawUpgrades_defined m hr 3 g.randomCalls [] _ (by simp)⟩
  · unfold Game.applyUpgrade
    rw [if_pos ⟨hp, h0, hlen⟩]
    simp only [hget]
  · have hn : ¬ (g.upgradePoints > 0 ∧ index ≥ 0 ∧ index < g.availableUpgrades.length) := by
      rintro ⟨h1, h2, h3⟩
      rcases h with h | h | h <;> omega
    simp [Game.applyUpgrade, hn]
  · unfold Game.applyUpgrade at hres
    split at hres
    · rename_i hc
      split at hres
      · simp only [Option.some.injEq] at hres
        rw [← hres]
        show 0 ≤ g.upgradePoints - 1
        omega
      · exact absurd hres (by simp)
    · simp only [Option.some.injEq] at hres
      rw [← hres]
      exact hp

/-- C20 at a game with one upgrade point: index 0 raises the bullet damage from
5 to 8 and leaves no point, an index out of range changes nothing. -/
theorem C20_applyUpgrade_witness :
    (upgradeScene.applyUpgrade 0).map (fun g => (g.player.bulletDamage, g.upgradePoints))
      = some (8, 0) ∧
    upgradeScene.applyUpgrade 3 = some upgradeScene ∧
    upgradeScene.applyUpgrade (-1) = some upgradeScene :=
  ⟨by rw [(C20_applyUpgrade upgradeScene 0).1 Upgrade.higherDamage (by decide) (by decide)
      (by decide) rfl]; decide!,
    (C20_applyUpgrade upgradeScene 3).2.1 (Or.inr (Or.inr (by decide))),
    (C20_applyUpgrade upgradeScene (-1)).2.1 (Or.inr (Or.inl (by decide)))⟩

/-! ## Spawning shapes (C21, C22, C23) -/

/-- Every entry that the draw can read from `types` is one of the three
types. -/
theorem drawnType_mem (rand : ℚ) :
    drawnType rand = "square" ∨ drawnType rand = "triangle" ∨ drawnType rand = "pentagon" := by
  unfold drawnType Game.drawTypeIndex Game.drawTypeIndex Game.drawTypeIndex Game.drawTypeIndex
  split_ifs <;> simp

/-- C21: `spawnRandomShape`, its candidate point `(x, y)` being the next two
random draws: with `shapes.length ≥ maxShapes` nothing changes; with the
candidate at distance `< 200` from the player no shape is added and only the two
draws of this one attempt are consumed (no retry); otherwise exactly one shape,
of one of the three types, is appended at the candidate point; so
`shapes.length` never exceeds `maxShapes`. -/
theorem C21_spawnRandomShape (m : JsMath) (g : Game) :
    (g.maxShapes ≤ g.shapes.length → Game.spawnRandomShape m g = g) ∧
    (g.shapes.length < g.maxShapes →
      Utils.distance m (Utils.random m g.randomCalls 50 (g.worldSize - 50))
        (Utils.random m (g.randomCalls + 1) 50 (g.worldSize - 50))
        g.player.x g.player.y < 200 →
      Game.spawnRandomShape m g = { g with randomCalls := g.randomCalls + 2 }) ∧
    (g.shapes.length < g.maxShapes →
      ¬ Utils.distance m (Utils.random m g.randomCalls 50 (g.worldSize - 50))
        (Utils.random m (g.randomCalls + 1) 50 (g.worldSize - 50))
        g.player.x g.player.y < 200 →
      Game.spawnRandomShape m g =
        { g with
          randomCalls := g.randomCalls + 3
          shapes := g.shapes ++
            [Shape.new (Utils.random m g.randomCalls 50 (g.worldSize - 50))
              (Utils.random m (g.randomCalls + 1) 50 (g.worldSize - 50))
              (drawnType (m.random (g.randomCalls + 2) * 100))] }) ∧
    (g.shapes.length ≤ g.maxShapes →
      (Game.spawnRandomShape m g).shapes.length ≤ g.maxShapes) := by
  have hfull : g.maxShapes ≤ g.shapes.length → Game.spawnRandomShape m g = g := by
    intro h
    have h1 : g.shapes.length ≥ g.maxShapes := h
    simp [Game.spawnRandomShape, h1]
  refine ⟨hfull, fun hlen hnear => ?_, fun hlen hfar => ?_, fun hle => ?_⟩
  · have h1 : ¬ g.shapes.length ≥ g.maxShapes := by omega
    simp [Game.spawnRandomShape, h1, hnear]
  · have h1 : ¬ g.shapes.length ≥ g.maxShapes := by omega
    simp [Game.spawnRandomShape, h1, hfar, drawnType]
  · by_cases hfullc : g.maxShapes ≤ g.shapes.length
    · rw [hfull hfullc]; exact hle
    · have h1 : ¬ g.shapes.length ≥ g.maxShapes := hfullc
      have hlt : g.shapes.length < g.maxShapes := by omega
      unfold Game.spawnRandomShape
      rw [if_neg h1]
      dsimp only
      split
      · exact hle
      · simp only [List.length_append, List.length_singleton]
        omega

/-- C21 at a new game (no shapes, player at the centre) with the candidate
point `(1000, 1150)`, exactly 150 units from the player: no shape is added and
only the two draws of the attempt are consumed. -/
theorem C21_spawnRandomShape_witness :
    Utils.distance nearMath (Utils.random nearMath 0 50 (2000 - 50))
      (Utils.random nearMath 1 50 (2000 - 50)) 1000 1000 = 150 ∧
    (Game.spawnRandomShape nearMath (Game.fields 800 600)).shapes = [] ∧
    (Game.spawnRandomShape nearMath (Game.fields 800 600)).randomCalls = 2 :=
  have h := (C21_spawnRandomShape nearMath (Game.fields 800 600)).2.1 (by decide!)
    (by decide!)
  ⟨by decide!, by rw [h]; rfl, by rw [h]; rfl⟩

/-- C22: for every draw value `r` with `0 ≤ r < 100` the type chosen by the loop
of `spawnRandomShape` is square when `r ≤ 70`, triangle when `70 < r ≤ 95` and
pentagon when `r > 95`; it is always exactly one of the three types. -/
theorem C22_shape_type_draw (r : ℚ) (_h0 : 0 ≤ r) (h100 : r < 100) :
    (r ≤ 70 → drawnType r = "square") ∧
    (70 < r → r ≤ 95 → drawnType r = "triangle") ∧
    (95 < r → drawnType r = "pentagon") ∧
    (drawnType r = "square" ∨ drawnType r = "triangle" ∨ drawnType r = "pentagon") := by
  refine ⟨fun h => ?_, fun h1 h2 => ?_, fun h => ?_, drawnType_mem r⟩
  · simp [drawnType, Game.drawTypeIndex, h]
  · have hn : ¬ r ≤ 70 := not_le.mpr h1
    have h3 : r - 70 ≤ 25 := by linarith
    simp [drawnType, Game.drawTypeIndex, hn, h3]
  · have hn : ¬ r ≤ 70 := by linarith
    have hn2 : ¬ r - 70 ≤ 25 := by linarith
    have h3 : r - 70 - 25 ≤ 5 := by linarith
    simp [drawnType, Game.drawTypeIndex, hn, hn2, h3]

/-- C22 at the draw values 70 (still a square), 95 (still a triangle) and 99. -/
theorem C22_shape_type_draw_witness :
    drawnType 70 = "square" ∧ drawnType 95 = "triangle" ∧ drawnType 99 = "pentagon" :=
  ⟨(C22_shape_type_draw 70 (by norm_num) (by norm_num)).1 (by norm_num),
    (C22_shape_type_draw 95 (by norm_num) (by norm_num)).2.1 (by norm_num) (by norm_num),
    (C22_shape_type_draw 99 (by norm_num) (by norm_num)).2.2.1 (by norm_num)⟩

/-- C23 (fails on the code): a shape of an unknown kind gets the radius, color,
health, maxHealth and points of a square through the fallback of the stats
lookup, but 5 sides, not the 4 of a square: the `sides` conditional has no such
fallback.  This holds for `hexagon` and for every kind other than the three
that names no inherited member of the table; for the inherited names the
lookup yields no stats record (the stats are `undefined`), and the sides are 5
as well. -/
theorem C23_unknown_kind_has_five_sides :
    Shape.stats "hexagon" = Shape.stats "square" ∧
    (Shape.new 0 0 "hexagon").sides = 5 ∧ (Shape.new 0 0 "square").sides = 4 ∧
    (∀ (x y : ℚ) (type : String),
      type ≠ "square" → type ≠ "triangle" → type ≠ "pentagon" →
      (Shape.new x y type).sides = 5 ∧ (Shape.new x y "square").sides = 4 ∧
      (type ∉ Shape.inheritedNames →
        Shape.stats type = Shape.stats "square" ∧
        (Shape.new x y type).radius = (Shape.new x y "square").radius ∧
        (Shape.new x y type).color = (Shape.new x y "square").color ∧
        (Shape.new x y type).health = (Shape.new x y "square").health ∧
        (Shape.new x y type).maxHealth = (Shape.new x y "square").maxHealth ∧
        (Shape.new x y type).points = (Shape.new x y "square").points)) ∧
    (∀ type ∈ Shape.inheritedNames, Shape.stats type = none) := by
  refine ⟨by decide, by decide!, by decide!, fun x y type h1 h2 h3 => ?_, by decide⟩
  refine ⟨by simp [Shape.new, h1, h2], by simp [Shape.new], fun h4 => ?_⟩
  simp [Shape.new, Shape.stats, h1, h2, h3, h4]

/-! ## Bullet ownership (C24) -/

/-- The method `Bullet.update` keeps the owner. -/
theorem Bullet.update_fromPlayer (m : JsMath) (b : Bullet) :
    (b.update m).fromPlayer = b.fromPlayer := by
  unfold Bullet.update
  dsimp only
  split <;> rfl

/-- The method `Bullet.registerHit` keeps the owner. -/
theorem Bullet.registerHit_fromPlayer (b : Bullet) (entityId : Option ℕ) :
    (b.registerHit entityId).fromPlayer = b.fromPlayer := by
  unfold Bullet.registerHit
  split <;> rfl

/-- Nothing changed is a case of `HealsOnly`. -/
theorem HealsOnly.refl (p : Player) : HealsOnly p p :=
  ⟨rfl, le_refl _, Or.inl ⟨rfl, rfl⟩⟩

/-- Two steps of `HealsOnly` compose. -/
theorem HealsOnly.trans {p q r : Player} (h1 : HealsOnly p q) (h2 : HealsOnly q r) :
    HealsOnly p r := by
  obtain ⟨hm1, hx1, hh1⟩ := h1
  obtain ⟨hm2, hx2, hh2⟩ := h2
  refine ⟨hm2.trans hm1, le_trans hx1 hx2, ?_⟩
  rcases hh2 with ⟨ha, hb⟩ | hc
  · rcases hh1 with ⟨hd, he⟩ | hf
    · exact Or.inl ⟨ha.trans hd, hb.trans he⟩
    · exact Or.inr (by rw [ha, hb, hf])
  · exact Or.inr hc

/-- The method `Player.addScore` changes health only by the heal of a
level-up. -/
theorem HealsOnly.addScore (p : Player) (points : ℚ) : HealsOnly p (p.addScore points) := by
  unfold Player.addScore
  dsimp only
  split
  · refine ⟨rfl, ?_, Or.inr rfl⟩
    show p.maxHealth ≤ p.maxHealth + 10
    linarith
  · exact ⟨rfl, le_refl _, Or.inl ⟨rfl, rfl⟩⟩

/-- An enemy-owned bullet leaves the player alone in the shape loop. -/
theorem Game.hitShapes_enemy_bullet (m : JsMath) (player : Player) :
    ∀ (shapes : List Shape) (bullet : Bullet), bullet.fromPlayer = false →
      (Game.hitShapes m player bullet shapes).1 = player := by
  intro shapes
  induction shapes with
  | nil => intro bullet _; rfl
  | cons shape rest ih =>
    intro bullet hb
    unfold Game.hitShapes
    split
    · simp only [hb, Bool.false_eq_true, and_false, if_false]
      exact ih _ (by rw [Bullet.registerHit_fromPlayer]; exact hb)
    · exact ih _ hb

/-- In the shape loop the player's health changes only by level-up heals. -/
theorem Game.hitShapes_healsOnly (m : JsMath) :
    ∀ (shapes : List Shape) (player : Player) (bullet : Bullet),
      HealsOnly player (Game.hitShapes m player bullet shapes).1 := by
  intro shapes
  induction shapes with
  | nil => intro player bullet; exact HealsOnly.refl player
  | cons shape rest ih =>
    intro player bullet
    unfold Game.hitShapes
    split
    · dsimp only
      refine HealsOnly.trans ?_ (ih _ _)
      split
      · exact HealsOnly.addScore _ _
      · exact HealsOnly.refl _
    · exact ih _ _

/-- In the enemy loop the player's health changes only by level-up heals. -/
theorem Game.hitEnemies_healsOnly (m : JsMath) :
    ∀ (enemies : List Enemy) (player : Player) (upgradePoints : ℤ) (bullet : Bullet),
      HealsOnly player (Game.hitEnemies m player upgradePoints bullet enemies).1 := by
  intro enemies
  induction enemies with
  | nil => intro player upgradePoints bullet; exact HealsOnly.refl player
  | cons enemy rest ih =>
    intro player upgradePoints bullet
    unfold Game.hitEnemies
    split
    · dsimp only
      refine HealsOnly.trans ?_ (ih _ _ _)
      split
      · exact HealsOnly.addScore _ _
      · exact HealsOnly.refl _
    · exact ih _ _ _

/-- The shape loop keeps the owner of the bullet. -/
theorem Game.hitShapes_fromPlayer (m : JsMath) :
    ∀ (shapes : List Shape) (player : Player) (bullet : Bullet),
      (Game.hitShapes m player bullet shapes).2.1.fromPlayer = bullet.fromPlayer := by
  intro shapes
  induction shapes with
  | nil => intro player bullet; rfl
  | cons shape rest ih =>
    intro player bullet
    unfold Game.hitShapes
    split
    · dsimp only
      rw [ih, Bullet.registerHit_fromPlayer]
    · exact ih _ _

/-- The enemy loop keeps the owner of the bullet. -/
theorem Game.hitEnemies_fromPlayer (m : JsMath) :
    ∀ (enemies : List Enemy) (player : Player) (upgradePoints : ℤ) (bullet : Bullet),
      (Game.hitEnemies m player upgradePoints bullet enemies).2.2.1.fromPlayer
        = bullet.fromPlayer := by
  intro enemies
  induction enemies with
  | nil => intro player upgradePoints bullet; rfl
  | cons enemy rest ih =>
    intro player upgradePoints bullet
    unfold Game.hitEnemies
    split
    · dsimp only
      rw [ih, Bullet.registerHit_fromPlayer]
    · exact ih _ _ _

/-- The player-collision part changes neither the enemies, nor the upgrade
points, nor the player's score. -/
theorem Game.bulletVsPlayer_frame (m : JsMath) (g : Game) (bullet : Bullet) :
    (Game.bulletVsPlayer m g bullet).1.enemies = g.enemies ∧
    (Game.bulletVsPlayer m g bullet).1.upgradePoints = g.upgradePoints ∧
    (Game.bulletVsPlayer m g bullet).1.player.score = g.player.score := by
  unfold Game.bulletVsPlayer Player.takeDamage
  dsimp only
  split_ifs <;> exact ⟨rfl, rfl, rfl⟩

/-- C24 (amended): in the body of the bullet loop of `Game.update`, an
enemy-owned bullet changes no enemy, not the player's score and not
`upgradePoints`; a player-owned bullet never sets `gameOver` and never marks or
damages the player: the player's health stays, or becomes the new `maxHealth`
by the heal of a level-up that the bullet's points trigger, so it does not drop
for a player with `health ≤ maxHealth`. -/
theorem C24_bullet_ownership (m : JsMath) (g : Game) (bullet : Bullet) :
    (bullet.fromPlayer = false →
      (Game.bulletStep m g bullet).1.enemies = g.enemies ∧
      (Game.bulletStep m g bullet).1.player.score = g.player.score ∧
      (Game.bulletStep m g bullet).1.upgradePoints = g.upgradePoints) ∧
    (bullet.fromPlayer = true →
      (Game.bulletStep m g bullet).1.gameOver = g.gameOver ∧
      HealsOnly g.player (Game.bulletStep m g bullet).1.player ∧
      (g.player.health ≤ g.player.maxHealth →
        g.player.health ≤ (Game.bulletStep m g bullet).1.player.health)) := by
  constructor
  · intro hb
    have hu : (bullet.update m).fromPlayer = false := by
      rw [Bullet.update_fromPlayer]; exact hb
    unfold Game.bulletStep
    dsimp only
    split
    · exact ⟨rfl, rfl, rfl⟩
    · have hs : (Game.hitShapes m g.player (bullet.update m) g.shapes).2.1.fromPlayer
          = false := by rw [Game.hitShapes_fromPlayer]; exact hu
      have hp := Game.hitShapes_enemy_bullet m g.player g.shapes (bullet.update m) hu
      obtain ⟨h1, h2, h3⟩ := Game.bulletVsPlayer_frame m
        (Game.bulletVsEnemies m (Game.bulletVsShapes m g (bullet.update m)).1
          (Game.bulletVsShapes m g (bullet.update m)).2).1
        (Game.bulletVsEnemies m (Game.bulletVsShapes m g (bullet.update m)).1
          (Game.bulletVsShapes m g (bullet.update m)).2).2
      rw [h1, h2, h3]
      simp [Game.bulletVsEnemies, Game.bulletVsShapes, hs, hp]
  · intro hb
    have hu : (bullet.update m).fromPlayer = true := by
      rw [Bullet.update_fromPlayer]; exact hb
    have key : (Game.bulletStep m g bullet).1.gameOver = g.gameOver ∧
        HealsOnly g.player (Game.bulletStep m g bullet).1.player := by
      unfold Game.bulletStep
      dsimp only
      split
      · exact ⟨rfl, HealsOnly.refl _⟩
      · have hs : (Game.hitShapes m g.player (bullet.update m) g.shapes).2.1.fromPlayer
            = true := by rw [Game.hitShapes_fromPlayer]; exact hu
        have he : (Game.hitEnemies m (Game.hitShapes m g.player (bullet.update m) g.shapes).1
            g.upgradePoints (Game.hitShapes m g.player (bullet.update m) g.shapes).2.1
            g.enemies).2.2.1.fromPlayer = true := by
          rw [Game.hitEnemies_fromPlayer]; exact hs
        simp only [Game.bulletVsPlayer, Game.bulletVsEnemies, Game.bulletVsShapes, hs, he,
          if_true, Bool.not_true, Bool.false_and, Bool.false_eq_true, if_false]
        exact ⟨trivial, HealsOnly.trans (Game.hitShapes_healsOnly m _ _ _)
          (Game.hitEnemies_healsOnly m _ _ _ _)⟩
    refine ⟨key.1, key.2, fun hle => ?_⟩
    obtain ⟨_, hmax, hh⟩ := key.2
    rcases hh with ⟨ha, _⟩ | hc
    · rw [ha]
    · rw [hc]; exact le_trans hle hmax

/-- C24 (as stated, fails): a player-owned bullet that destroys a pentagon
gives the player (health 50, 5 experience short of level 2) the 100 points that
trigger a level-up, and the level-up sets the health to the new maximum 110. -/
theorem C24_player_bullet_heals_counterexample :
    healScene.bullets.map (fun b : Bullet => b.fromPlayer) = [true] ∧
    healScene.player.health = 50 ∧
    (Game.update refMath 0 healScene).map
        (fun g => (g.player.health, g.player.level, g.gameOver))
      = some (110, 2, false) := by
  decide!

/-- C24 (amended) at the bullet and the game of the scenario: the bullet does
not set `gameOver` and the health does not drop. -/
theorem C24_bullet_ownership_witness :
    (Game.bulletStep refMath healScene (Bullet.new 295 300 0 5 5 "#00B2E1" true)).1.gameOver
      = healScene.gameOver ∧
    healScene.player.health
      ≤ (Game.bulletStep refMath healScene
          (Bullet.new 295 300 0 5 5 "#00B2E1" true)).1.player.health :=
  have h := (C24_bullet_ownership refMath healScene
    (Bullet.new 295 300 0 5 5 "#00B2E1" true)).2 rfl
  ⟨h.1, h.2.2 (by decide!)⟩

/-! ## Cleanup (C25) -/

/-- The level check leaves shapes and enemies alone. -/
theorem Game.checkLevelProgress_entities (m : JsMath) (g : Game) :
    (Game.checkLevelProgress m g).shapes = g.shapes ∧
    (Game.checkLevelProgress m g).enemies = g.enemies := by
  unfold Game.checkLevelProgress
  split
  · split
    · unfold Game.levelUp Game.showUpgradeMenu
      dsimp only
      split <;> exact ⟨rfl, rfl⟩
    · exact ⟨rfl, rfl⟩
  · exact ⟨rfl, rfl⟩

/-- C25 (fails on the code): `Game.update` filters the bullets before the bullet
loop, not after it, so a bullet marked during the loop is still in `bullets`,
marked, at the end of the tick (here the bullet that hit the two pentagons); the
next tick drops it.  Shapes and enemies are filtered after the loop and never
hold a marked entity at the end of a tick. -/
theorem C25_marked_bullet_survives_tick :
    (Game.update refMath 0 twoShapesScene).map
        (fun g => g.bullets.map (fun b : Bullet => b.markedForDeletion)) = some [true] ∧
    ((Game.update refMath 0 twoShapesScene).bind (Game.update refMath 0)).map
        (fun g => g.bullets.length) = some 0 ∧
    (∀ (m : JsMath) (fuel : ℕ) (g g1 : Game),
      g.paused = false → g.gameOver = false → g.showingUpgradeMenu = false →
      Game.update m fuel g = some g1 →
      (∀ shape ∈ g1.shapes, shape.markedForDeletion = false) ∧
      (∀ enemy ∈ g1.enemies, enemy.markedForDeletion = false)) := by
  refine ⟨by decide!, by decide!, fun m fuel g g1 hp ho hs hres => ?_⟩
  unfold Game.update at hres
  simp only [hp, ho, hs, Bool.or_self, Bool.false_eq_true, if_false] at hres
  split at hres
  · exact absurd hres (by simp)
  · rename_i spawned _
    simp only [Option.some.injEq] at hres
    subst hres
    unfold Game.updateCleanup
    dsimp only
    obtain ⟨h1, h2⟩ := Game.checkLevelProgress_entities m
      { Game.updateBullets m spawned with
        shapes := (Game.updateBullets m spawned).shapes.filter
          (fun shape => !shape.markedForDeletion)
        enemies := (Game.updateBullets m spawned).enemies.filter
          (fun enemy => !enemy.markedForDeletion) }
    rw [h1, h2]
    constructor
    · intro shape hmem
      have := (List.mem_filter.mp hmem).2
      simpa using this
    · intro enemy hmem
      have := (List.mem_filter.mp hmem).2
      simpa using this

/-! ## Enemy movement (C26, C27) -/

/-- C26 (fails on the code): the wander branch of `Enemy.update` never resets
`fleeing`.  A tier-1 enemy (speed 2) that fled in one tick and is 401 units from
the player in the next (a wander tick) still moves by `(1.8, 2.4)`, a step of
length `3 = 1.5 * 2`; in general the behaviour choice leaves `fleeing` as it was
whenever the player is out of the detection radius. -/
theorem C26_stale_fleeing_in_wander :
    staleFleeEnemy.speed = 2 ∧ staleFleeEnemy.fleeing = false ∧
    (staleFleeEnemy1.x, staleFleeEnemy1.y, staleFleeEnemy1.fleeing)
      = (1240.6, 1320.8, true) ∧
    Utils.distance refMath staleFleeEnemy1.x staleFleeEnemy1.y 1000 1000 = 401 ∧
    (staleFleeEnemy2.x - staleFleeEnemy1.x, staleFleeEnemy2.y - staleFleeEnemy1.y)
      = (1.8, 2.4) ∧
    (1.8 : ℚ) ^ 2 + 2.4 ^ 2 = (1.5 * 2) ^ 2 ∧
    (∀ (m : JsMath) (k : ℕ) (e : Enemy) (playerX playerY worldSize : ℚ)
        (bullets : List Bullet),
      ¬ Utils.distance m e.x e.y playerX playerY < e.detectionRadius →
      (e.chooseBehaviour m k playerX playerY worldSize bullets).1.fleeing = e.fleeing) := by
  refine ⟨by decide!, by decide!, by decide!, by decide!, by decide!, by norm_num,
    fun m k e playerX playerY worldSize bullets h => ?_⟩
  unfold Enemy.chooseBehaviour
  simp only [h, decide_False, Bool.false_eq_true, if_false]
  split <;> simp [Enemy.chooseRandomTarget]

/-- C27 (as stated, fails): a healthy tier-1 enemy at `(1000, 1000)` with the
player at `(1100, 1000)` is in a chase tick of `Enemy.update` (the player is
100 units away, inside the detection radius 400); its target is the player, 100
units away and so more than 5, and it does not move at all. -/
theorem C27_chasing_enemy_stops_counterexample :
    Utils.distance refMath 1000 1000 1100 1000 = 100 ∧
    ((Enemy.new 1000 1000 1).update refMath 0 1100 1000 2000 []).1.fleeing = false ∧
    ((Enemy.new 1000 1000 1).update refMath 0 1100 1000 2000 []).1.targetX = some 1100 ∧
    ((Enemy.new 1000 1000 1).update refMath 0 1100 1000 2000 []).1.targetY = some 1000 ∧
    ((Enemy.new 1000 1000 1).update refMath 0 1100 1000 2000 []).1.x = 1000 ∧
    ((Enemy.new 1000 1000 1).update refMath 0 1100 1000 2000 []).1.y = 1000 := by
  decide!

/-- A vector `(dx, dy)` divided by its length `d` and multiplied by `s` has the
squared length `s ^ 2`. -/
theorem step_length (dx dy d s : ℚ) (hd : d ≠ 0) (hsq : d * d = dx * dx + dy * dy) :
    (dx / d * s) ^ 2 + (dy / d * s) ^ 2 = s ^ 2 := by
  field_simp
  linear_combination (-(s ^ 2)) * hsq

/-- A vector `(dx, dy)` divided by any nonzero `d` and multiplied by `s`: its
squared length times `d ^ 2` is `s ^ 2` times the squared length of
`(dx, dy)`. -/
theorem step_length_scaled (dx dy d s : ℚ) (hd : d ≠ 0) :
    ((dx / d * s) ^ 2 + (dy / d * s) ^ 2) * d ^ 2 = s ^ 2 * (dx * dx + dy * dy) := by
  field_simp
  ring

/-- An enemy that is not fleeing and whose computed distance to its target is
below 150 is left where it is by `moveTowardsTarget`. -/
theorem Enemy.moveTowardsTarget_not_fleeing_near (m : JsMath) (e : Enemy)
    (targetX targetY : ℚ) (hx : e.targetX = some targetX) (hy : e.targetY = some targetY)
    (hf : e.fleeing = false)
    (h150 : m.sqrt ((targetX - e.x) * (targetX - e.x)
      + (targetY - e.y) * (targetY - e.y)) < 150) :
    e.moveTowardsTarget m = e := by
  unfold Enemy.moveTowardsTarget
  simp only [hx, hy]
  split
  · simp [hf, h150]
  · rfl

/-- The chase branch of the behaviour choice: with the player inside the
detection radius and the health not below the flee fraction, the enemy stops
fleeing, targets the player and keeps its position. -/
theorem Enemy.chooseBehaviour_chase (m : JsMath) (k : ℕ) (e : Enemy)
    (playerX playerY worldSize : ℚ) (bullets : List Bullet)
    (hsee : Utils.distance m e.x e.y playerX playerY < e.detectionRadius)
    (hhealthy : quotientLt e.health e.maxHealth e.fleeHealthPercent = false) :
    (e.chooseBehaviour m k playerX playerY worldSize bullets).1.fleeing = false ∧
    (e.chooseBehaviour m k playerX playerY worldSize bullets).1.targetX = some playerX ∧
    (e.chooseBehaviour m k playerX playerY worldSize bullets).1.targetY = some playerY ∧
    (e.chooseBehaviour m k playerX playerY worldSize bullets).1.x = e.x ∧
    (e.chooseBehaviour m k playerX playerY worldSize bullets).1.y = e.y := by
  unfold Enemy.chooseBehaviour
  simp only [hsee, decide_True, if_true, hhealthy, Bool.false_eq_true, if_false]
  split <;> simp

/-- C27 (amended): `moveTowardsTarget`, with `distance` the computed distance
`Math.sqrt(dx * dx + dy * dy)` to the target and `speed` the step (`1.5 *` the
enemy's speed when fleeing).  The enemy stays where it is when `distance ≤ 5`.
When `distance > 5` and the enemy is fleeing or `distance ≥ 150`, it advances by
`(dx / distance * speed, dy / distance * speed)`, along the straight line to the
target; the squared length of that step times `distance ^ 2` is `speed ^ 2`
times `dx * dx + dy * dy`, so the step has length exactly `speed` wherever the
square root is exact.  In a chase tick of `Enemy.update` (player inside the
detection radius, health not below the flee fraction) with the player nearer
than 150 units the enemy does not move: its position is kept up to the final
restriction to the world. -/
theorem C27_moveTowardsTarget (m : JsMath) (e : Enemy) (targetX targetY distance speed : ℚ)
    (hx : e.targetX = some targetX) (hy : e.targetY = some targetY)
    (hd : distance = m.sqrt ((targetX - e.x) * (targetX - e.x)
      + (targetY - e.y) * (targetY - e.y)))
    (hs : speed = if e.fleeing = true then e.speed * 1.5 else e.speed) :
    (distance ≤ 5 → e.moveTowardsTarget m = e) ∧
    (5 < distance → (e.fleeing = true ∨ 150 ≤ distance) →
      (e.moveTowardsTarget m).x = e.x + (targetX - e.x) / distance * speed ∧
      (e.moveTowardsTarget m).y = e.y + (targetY - e.y) / distance * speed ∧
      (((e.moveTowardsTarget m).x - e.x) ^ 2 + ((e.moveTowardsTarget m).y - e.y) ^ 2)
          * distance ^ 2
        = speed ^ 2 * ((targetX - e.x) * (targetX - e.x)
            + (targetY - e.y) * (targetY - e.y)) ∧
      (SqrtExactAt m ((targetX - e.x) * (targetX - e.x) + (targetY - e.y) * (targetY - e.y)) →
        ((e.moveTowardsTarget m).x - e.x) ^ 2 + ((e.moveTowardsTarget m).y - e.y) ^ 2
          = speed ^ 2)) ∧
    (∀ (k : ℕ) (playerX playerY worldSize : ℚ) (bullets : List Bullet),
      Utils.distance m e.x e.y playerX playerY < e.detectionRadius →
      quotientLt e.health e.maxHealth e.fleeHealthPercent = false →
      Utils.distance m e.x e.y playerX playerY < 150 →
      ((e.chooseBehaviour m k playerX playerY worldSize bullets).1.moveTowardsTarget m).x
        = e.x ∧
      ((e.chooseBehaviour m k playerX playerY worldSize bullets).1.moveTowardsTarget m).y
        = e.y ∧
      (e.update m k playerX playerY worldSize bullets).1.x
        = Utils.clamp e.x e.radius (worldSize - e.radius) ∧
      (e.update m k playerX playerY worldSize bullets).1.y
        = Utils.clamp e.y e.radius (worldSize - e.radius)) := by
  subst hd
  have hstay : m.sqrt ((targetX - e.x) * (targetX - e.x)
      + (targetY - e.y) * (targetY - e.y)) ≤ 5 → e.moveTowardsTarget m = e := by
    intro h
    have hn : ¬ m.sqrt ((targetX - e.x) * (targetX - e.x)
        + (targetY - e.y) * (targetY - e.y)) > 5 := not_lt.mpr h
    unfold Enemy.moveTowardsTarget
    simp only [hx, hy]
    rw [if_neg hn]
  have hmove : 5 < m.sqrt ((targetX - e.x) * (targetX - e.x)
        + (targetY - e.y) * (targetY - e.y)) →
      (e.fleeing = true ∨ 150 ≤ m.sqrt ((targetX - e.x) * (targetX - e.x)
        + (targetY - e.y) * (targetY - e.y))) →
      (e.moveTowardsTarget m).x = e.x + (targetX - e.x) / m.sqrt ((targetX - e.x)
        * (targetX - e.x) + (targetY - e.y) * (targetY - e.y)) * speed ∧
      (e.moveTowardsTarget m).y = e.y + (targetY - e.y) / m.sqrt ((targetX - e.x)
        * (targetX - e.x) + (targetY - e.y) * (targetY - e.y)) * speed := by
    intro h5 hgo
    have h5' : m.sqrt ((targetX - e.x) * (targetX - e.x)
        + (targetY - e.y) * (targetY - e.y)) > 5 := h5
    unfold Enemy.moveTowardsTarget
    simp only [hx, hy]
    rw [if_pos h5']
    rcases hgo with hf | hfar
    · simp [hf, hs]
    · have hnot : ¬ m.sqrt ((targetX - e.x) * (targetX - e.x)
          + (targetY - e.y) * (targetY - e.y)) < 150 := not_lt.mpr hfar
      by_cases hf : e.fleeing = true
      · simp [hf, hs]
      · have hf' : e.fleeing = false := by simpa using hf
        simp [hf', hs, hnot]
  refine ⟨hstay, fun h5 hgo => ?_, fun k playerX playerY worldSize bullets hsee hh hnear => ?_⟩
  · obtain ⟨hmx, hmy⟩ := hmove h5 hgo
    have hne : m.sqrt ((targetX - e.x) * (targetX - e.x)
        + (targetY - e.y) * (targetY - e.y)) ≠ 0 := by
      intro h0
      rw [h0] at h5
      norm_num at h5
    refine ⟨hmx, hmy, ?_, fun hexact => ?_⟩
    · rw [hmx, hmy, add_sub_cancel_left, add_sub_cancel_left]
      exact step_length_scaled _ _ _ _ hne
    · obtain ⟨_, hsq⟩ := hexact
      rw [hmx, hmy, add_sub_cancel_left, add_sub_cancel_left]
      exact step_length _ _ _ _ hne hsq
  · obtain ⟨hcf, hctx, hcty, hcx, hcy⟩ :=
      Enemy.chooseBehaviour_chase m k e playerX playerY worldSize bullets hsee hh
    have hnear2 : m.sqrt
        ((playerX - (e.chooseBehaviour m k playerX playerY worldSize bullets).1.x)
          * (playerX - (e.chooseBehaviour m k playerX playerY worldSize bullets).1.x)
        + (playerY - (e.chooseBehaviour m k playerX playerY worldSize bullets).1.y)
          * (playerY - (e.chooseBehaviour m k playerX playerY worldSize bullets).1.y))
        < 150 := by
      rw [hcx, hcy]
      have harg : (playerX - e.x) * (playerX - e.x) + (playerY - e.y) * (playerY - e.y)
          = (playerX - e.x) ^ 2 + (playerY - e.y) ^ 2 := by ring
      rw [harg]
      exact hnear
    have hkeep := Enemy.moveTowardsTarget_not_fleeing_near m _ playerX playerY hctx hcty hcf
      hnear2
    have hrad : (e.chooseBehaviour m k playerX playerY worldSize bullets).1.radius
        = e.radius := by
      unfold Enemy.chooseBehaviour
      simp only [hsee, decide_True, if_true, hh, Bool.false_eq_true, if_false]
      split <;> simp
    refine ⟨by rw [hkeep, hcx], by rw [hkeep, hcy], ?_, ?_⟩
    · unfold Enemy.update
      simp only [hkeep, hcx, hrad]
    · unfold Enemy.update
      simp only [hkeep, hcy, hrad]

/-- C27 (amended) at a fleeing tier-1 enemy at the origin with its target at
`(120, 160)`, 200 units away: it advances by `(1.8, 2.4)`, a step of length
`3 = 1.5 * 2`. -/
theorem C27_moveTowardsTarget_witness :
    (({ Enemy.new 0 0 1 with targetX := some 120, targetY := some 160, fleeing := true }
      ).moveTowardsTarget refMath).x = 0 + (120 - 0) / 200 * 3 ∧
    (({ Enemy.new 0 0 1 with targetX := some 120, targetY := some 160, fleeing := true }
      ).moveTowardsTarget refMath).y = 0 + (160 - 0) / 200 * 3 :=
  have h := (C27_moveTowardsTarget refMath
    { Enemy.new 0 0 1 with targetX := some 120, targetY := some 160, fleeing := true }
    120 160 200 3 rfl rfl (by decide!) (by decide!)).2.1 (by norm_num)
    (Or.inl rfl)
  ⟨h.1, h.2.1⟩

/-! ## The machine-gun barrage (C28) -/

/-- C28 (fails on the code): a second barrage started before the first revert
has fired captures the barrage rate 3 as its `oldRate`.  A machine-gun player
(rate 7, `specialMaxCooldown` 153.6 after three upgrades) whose cooldown has run
out 154 ticks after the first barrage starts a second one; the pending reverts
then hold 7 and 3, and once both have fired the rate is 3, not 7.  A single
barrage does revert to 7.  In general two barrages without a revert in between
end at rate 3 for every player. -/
theorem C28_overlapping_barrages_stick :
    barragePlayer.shootingRate = 7 ∧ barragePlayer.specialMaxCooldown = 153.6 ∧
    ((barragePlayer.activateSpecial refMath [] []).1.shootingRate,
      (barragePlayer.activateSpecial refMath [] []).2.2) = (3, [7]) ∧
    (fireTimers (barragePlayer.activateSpecial refMath [] []).1
      (barragePlayer.activateSpecial refMath [] []).2.2).shootingRate = 7 ∧
    (idleTicks refMath 154 (barragePlayer.activateSpecial refMath [] []).1).specialCooldown
      ≤ 0 ∧
    secondBarrage.2.2 = [7, 3] ∧
    (fireTimers secondBarrage.1 secondBarrage.2.2).shootingRate = 3 ∧
    (∀ p : Player,
      (fireTimers ((p.specialMachineBarrage []).1.specialMachineBarrage
          (p.specialMachineBarrage []).2).1
        ((p.specialMachineBarrage []).1.specialMachineBarrage
          (p.specialMachineBarrage []).2).2).shootingRate = 3) := by
  refine ⟨by decide!, by decide!, by decide!, by decide!, by decide!, by decide!, by decide!,
    fun p => ?_⟩
  simp [fireTimers, Player.specialMachineBarrage, Player.barrageRevert]

/-! ## Fleeing from a player at the same position (C29) -/

/-- C29 (fails on the code): with the enemy exactly at the player's position the
separation norm is 0 and the flee branch computes `0 / 0`: both `targetX` and
`targetY` are `NaN`.  Here both stand in the corner `(15, 15)`; in general this
happens for every enemy in the flee branch whose position equals the player's,
for any `Math.sqrt` with `sqrt(0) = 0`. -/
theorem C29_flee_target_is_NaN :
    Utils.distance refMath cornerEnemy.x cornerEnemy.y 15 15 = 0 ∧
    (cornerEnemy.chooseBehaviour refMath 0 15 15 2000 []).1.fleeing = true ∧
    (cornerEnemy.chooseBehaviour refMath 0 15 15 2000 []).1.targetX = none ∧
    (cornerEnemy.chooseBehaviour refMath 0 15 15 2000 []).1.targetY = none ∧
    (cornerEnemy.update refMath 0 15 15 2000 []).1.targetX = none ∧
    (∀ (m : JsMath) (k : ℕ) (e : Enemy) (worldSize : ℚ) (bullets : List Bullet),
      m.sqrt 0 = 0 → 0 < e.detectionRadius →
      quotientLt e.health e.maxHealth e.fleeHealthPercent = true →
      (e.chooseBehaviour m k e.x e.y worldSize bullets).1.targetX = none ∧
      (e.chooseBehaviour m k e.x e.y worldSize bullets).1.targetY = none) := by
  refine ⟨by decide!, by decide!, by decide!, by decide!, by decide!,
    fun m k e worldSize bullets h0 hr hq => ?_⟩
  simp [Enemy.chooseBehaviour, Utils.distance, h0, hr, hq, clampQuotient]

/-! ## Score and player level (C30) -/

/-- Every threshold is nonnegative. -/
theorem thresholdAfter_nonneg (k : ℕ) : 0 ≤ thresholdAfter k := by
  induction k with
  | zero => norm_num [thresholdAfter]
  | succ k ih =>
    unfold thresholdAfter
    have h : (0 : ℤ) ≤ ⌊thresholdAfter k * 1.5⌋ :=
      Int.floor_nonneg.mpr (mul_nonneg ih (by norm_num))
    exact_mod_cast h

/-- The consumed thresholds grow with the number of level-ups. -/
theorem consumedAfter_mono {k n : ℕ} (h : k ≤ n) : consumedAfter k ≤ consumedAfter n := by
  induction n with
  | zero =>
    have hk : k = 0 := by omega
    rw [hk]
  | succ n ih =>
    by_cases hk : k = n + 1
    · rw [hk]
    · have hle : k ≤ n := by omega
      have h1 := ih hle
      have h2 := thresholdAfter_nonneg n
      show consumedAfter k ≤ consumedAfter n + thresholdAfter n
      linarith

/-- A new player satisfies the bookkeeping. -/
theorem ScoreAccount.new (x y : ℚ) : ScoreAccount (Player.new x y) := by
  refine ⟨by simp [Player.new], ?_, ?_, ?_⟩ <;>
    simp [Player.new, thresholdAfter, consumedAfter]

/-- One `addScore` call with nonnegative points maintains the bookkeeping. -/
theorem ScoreAccount.addScore_step {p : Player} (h : ScoreAccount p) {points : ℚ}
    (hp : 0 ≤ points) : ScoreAccount (p.addScore points) := by
  obtain ⟨hl, ht, hs, he⟩ := h
  obtain ⟨k, hk⟩ : ∃ k, p.level = k + 1 := ⟨p.level - 1, by omega⟩
  have hk1 : p.level - 1 = k := by omega
  rw [hk1] at ht hs
  by_cases hc : p.experienceToNextLevel ≤ p.experience + points
  · have hge : p.experience + points ≥ p.experienceToNextLevel := hc
    have hlev : (p.addScore points).level = k + 1 + 1 := by
      simp [Player.addScore, hge, Player.levelUp, hk]
    have hthr : (p.addScore points).experienceToNextLevel
        = ((⌊p.experienceToNextLevel * 1.5⌋ : ℤ) : ℚ) := by
      simp [Player.addScore, hge, Player.levelUp]
    have hexp : (p.addScore points).experience
        = p.experience + points - p.experienceToNextLevel := by
      simp [Player.addScore, hge, Player.levelUp]
    have hsc : (p.addScore points).score = p.score + points := by
      simp [Player.addScore, hge, Player.levelUp]
    refine ⟨by omega, ?_, ?_, ?_⟩
    · rw [hthr, hlev, ht]
      rfl
    · rw [hsc, hexp, hlev, hs, ht]
      show p.experience + consumedAfter k + points
        = p.experience + points - thresholdAfter k + (consumedAfter k + thresholdAfter k)
      ring
    · rw [hexp]
      linarith
  · have hlt : ¬ p.experience + points ≥ p.experienceToNextLevel := hc
    have hlev : (p.addScore points).level = k + 1 := by
      simp [Player.addScore, hlt, hk]
    have hthr : (p.addScore points).experienceToNextLevel = p.experienceToNextLevel := by
      simp [Player.addScore, hlt]
    have hexp : (p.addScore points).experience = p.experience + points := by
      simp [Player.addScore, hlt]
    have hsc : (p.addScore points).score = p.score + points := by
      simp [Player.addScore, hlt]
    refine ⟨by omega, ?_, ?_, ?_⟩
    · rw [hthr, hlev, ht]
      rfl
    · rw [hsc, hexp, hlev, hs]
      show p.experience + consumedAfter k + points = p.experience + points + consumedAfter k
      ring
    · rw [hexp]
      linarith

/-- Any sequence of `addScore` calls with nonnegative points maintains the
bookkeeping. -/
theorem ScoreAccount.addScores (points : List ℚ) :
    ∀ p : Player, ScoreAccount p → (∀ v ∈ points, 0 ≤ v) → ScoreAccount (addScores p points) := by
  induction points with
  | nil => intro p h _; exact h
  | cons v rest ih =>
    intro p h hpts
    unfold Exo.addScores
    rw [List.foldl_cons]
    exact ih _ (h.addScore_step (hpts v (List.mem_cons_self _ _)))
      (fun w hw => hpts w (List.mem_cons_of_mem _ hw))

/-- C30 (amended): for a player evolved from the initial state by any sequence
of `addScore` calls with points `≥ 0`, the score equals the experience plus the
sum of the thresholds consumed by its level-ups (the threshold being the one
after `level - 1` level-ups); nine level-ups consume
`100+150+225+337+505+757+1135+1702+2553 = 7464`, so level `≥ 10` implies score
`≥ 7464`, and a menu opened for such a player while the score is below 7464, in
particular at the scores 1000, 3000 and 7000, does not take the class-selection
branch but generates the regular upgrades. -/
theorem C30_score_accounts_for_levels (x y : ℚ) (points : List ℚ)
    (hpts : ∀ v ∈ points, 0 ≤ v) :
    (addScores (Player.new x y) points).score
      = (addScores (Player.new x y) points).experience
        + consumedAfter ((addScores (Player.new x y) points).level - 1) ∧
    (addScores (Player.new x y) points).experienceToNextLevel
      = thresholdAfter ((addScores (Player.new x y) points).level - 1) ∧
    0 ≤ (addScores (Player.new x y) points).experience ∧
    consumedAfter 9 = 100 + 150 + 225 + 337 + 505 + 757 + 1135 + 1702 + 2553 ∧
    consumedAfter 9 = 7464 ∧
    (10 ≤ (addScores (Player.new x y) points).level →
      7464 ≤ (addScores (Player.new x y) points).score) ∧
    (∀ (m : JsMath) (g : Game), g.player = addScores (Player.new x y) points →
      (g.player.score = 1000 ∨ g.player.score = 3000 ∨ g.player.score = 7000 ∨
        g.player.score < 7464) →
      Game.offersClassSelection g = false ∧
      Game.showUpgradeMenu m g
        = Game.generateUpgrades m { g with showingUpgradeMenu := true, paused := true }) := by
  obtain ⟨hl, ht, hs, he⟩ := ScoreAccount.addScores points _ (ScoreAccount.new x y) hpts
  have h9 : consumedAfter 9 = 7464 := by decide!
  have hlevel : 10 ≤ (addScores (Player.new x y) points).level →
      7464 ≤ (addScores (Player.new x y) points).score := by
    intro h10
    have hmono : consumedAfter 9
        ≤ consumedAfter ((addScores (Player.new x y) points).level - 1) :=
      consumedAfter_mono (by omega)
    rw [hs]
    linarith
  refine ⟨hs, ht, he, by rw [h9]; norm_num, h9, hlevel, fun m g hg hscore => ?_⟩
  have hlt : g.player.score < 7464 := by
    rcases hscore with h | h | h | h
    · rw [h]; norm_num
    · rw [h]; norm_num
    · rw [h]; norm_num
    · exact h
  have hlow : ¬ 10 ≤ g.player.level := by
    intro h10
    rw [hg] at h10 hlt
    have := hlevel h10
    linarith
  have hoff : Game.offersClassSelection g = false := by
    simp [Game.offersClassSelection, hlow]
  refine ⟨hoff, ?_⟩
  have hoff2 : Game.offersClassSelection
      { g with showingUpgradeMenu := true, paused := true } = false := hoff
  simp [Game.showUpgradeMenu, hoff2]

/-- C30 (amended) at a new player given 100, 150 and 750 points (score 1000, level 3): at
the menu of the first game level-up the class selection is not offered. -/
theorem C30_score_accounts_for_levels_witness :
    (addScores (Player.new 1000 1000) [100, 150, 750]).score = 1000 ∧
    (addScores (Player.new 1000 1000) [100, 150, 750]).score
      = (addScores (Player.new 1000 1000) [100, 150, 750]).experience
        + consumedAfter ((addScores (Player.new 1000 1000) [100, 150, 750]).level - 1) ∧
    Game.offersClassSelection
      { Game.fields 800 600 with player := addScores (Player.new 1000 1000) [100, 150, 750] }
      = false :=
  have h := C30_score_accounts_for_levels 1000 1000 [100, 150, 750] (by decide!)
  ⟨by decide!, h.1,
    (h.2.2.2.2.2.2 refMath
      { Game.fields 800 600 with player := addScores (Player.new 1000 1000) [100, 150, 750] }
      rfl (Or.inl (by decide!))).1⟩

/-- C30 (as stated, fails): the menu of the game level-up for the threshold
7000 can take the class-selection branch.  A player at score 6990 and level 9
(every point value `≥ 0`) that gains the 500 points of a tier-2 enemy reaches
level 10 at score 7490, and the menu that `checkLevelProgress` opens for the
threshold 7000 in that tick offers the class selection: no upgrades are
generated. -/
theorem C30_class_selection_after_score_jump_counterexample :
    (∀ v ∈ [100, 150, 225, 337, 505, 757, 1135, 1702, 2079, (500 : ℚ)], 0 ≤ v) ∧
    (addScores (Player.new 1000 1000)
      [100, 150, 225, 337, 505, 757, 1135, 1702, 2079]).score = 6990 ∧
    (addScores (Player.new 1000 1000)
      [100, 150, 225, 337, 505, 757, 1135, 1702, 2079]).level = 9 ∧
    jumpScene.player.score = 7490 ∧ jumpScene.player.level = 10 ∧
    jumpScene.player.hasChosenClass = false ∧
    jumpScene.scoreThresholds.get? jumpScene.currentLevel = some 7000 ∧
    Game.offersClassSelection jumpScene = true ∧
    Game.checkLevelProgress refMath jumpScene
      = { jumpScene with currentLevel := 4, showingUpgradeMenu := true, paused := true } := by
  decide!

end Exo
